import Mathlib

/-!
Verification model of the laundrybot-Customer repository (Python).

Shallow embedding: Python floats are modelled as exact rationals (ℚ);
`round(x, 2)` is modelled as rounding half-up at two decimals (Python rounds
half-to-even on binary floats; no settled claim depends on tie behaviour, and
all concrete inputs used below are away from ties and representation drift).
Python strings are modelled as Lean `String` / `List Char`; the regular
expressions of the source are implemented as explicit character scanners with
the same leftmost-match semantics. Database tables are passed in explicitly as
lists; collaborator modules that can raise are modelled in the `Except` monad.
-/

/- Batteries marks the arithmetic of `Rat` `@[irreducible]`; restore the
default reducibility inside this file so that concrete rational computations
can be settled by `decide`. -/
attribute [local semireducible] Rat.add Rat.mul Rat.sub Rat.inv Rat.ofScientific

namespace LaundryBot

/-! ### String helpers (Python `str` operations restricted to the ASCII
behaviour the source relies on) -/

/-- ASCII apostrophe character, used to build source strings without a literal
apostrophe token. -/
def apos : Char := Char.ofNat 39

/-- ASCII apostrophe as a one-character string. -/
def aposS : String := String.singleton apos

/-- Python `str.strip()` whitespace test (ASCII whitespace). -/
def isPyWs (c : Char) : Bool :=
  c = ' ' || c = '\t' || c = '\n' || c = '\x0d' || c = '\x0b' || c = '\x0c'

def dropLeadingWs : List Char → List Char
  | [] => []
  | c :: cs => if isPyWs c then dropLeadingWs cs else c :: cs

/-- Python `s.strip()` on a character list. -/
def stripL (cs : List Char) : List Char :=
  (dropLeadingWs ((dropLeadingWs cs.reverse)).reverse)

/-- Python `s.strip()`. -/
def stripStr (s : String) : String := ⟨stripL s.data⟩

/-- Python `s.lower()` (ASCII case mapping, which covers every string the
source lowercases). -/
def lowerStr (s : String) : String := ⟨s.data.map Char.toLower⟩

/-- Python `s.replace(old_char, new_char)` for single characters. -/
def replaceChar (old new : Char) (s : String) : String :=
  ⟨s.data.map (fun c => if c = old then new else c)⟩

/-- Python `needle in hay` (contiguous substring test). -/
def containsSub (needle : List Char) : List Char → Bool
  | [] => needle.isEmpty
  | c :: cs => needle.isPrefixOf (c :: cs) || containsSub needle cs

/-- Python `needle in hay` on strings. -/
def inStr (needle hay : String) : Bool := containsSub needle.data hay.data

/-- Python `any(x in m for x in xs)`. -/
def anyIn (xs : List String) (m : String) : Bool := xs.any (fun x => inStr x m)

/-- Python `m in tuple_of_strings` (exact membership). -/
def memStr (m : String) (xs : List String) : Bool := xs.any (fun x => x = m)

/-- Python `s.rstrip(chars)`. -/
def rstripSet (chars : List Char) (s : String) : String :=
  ⟨(dropWhileSet s.data.reverse).reverse⟩
where
  dropWhileSet : List Char → List Char
    | [] => []
    | c :: cs => if chars.contains c then dropWhileSet cs else c :: cs

/-- Python `s[:n]`. -/
def takeStr (n : Nat) (s : String) : String := ⟨s.data.take n⟩

/-- Python `len(s)`. -/
def lenStr (s : String) : Nat := s.data.length

/-! ### Numbers: digit runs, `int(...)`, `float(...)`, `round(x, 2)` -/

def digitVal (c : Char) : Nat := c.toNat - '0'.toNat

/-- Maximal leading digit run: returns its value and the rest.  `none` when the
first character is not a digit. -/
def digitRun : List Char → Option (Nat × List Char)
  | [] => none
  | c :: cs =>
    if c.isDigit then
      match digitRun cs with
      | some (n, rest) => some (digitVal c * 10 ^ (cs.length - rest.length) + n, rest)
      | none => some (digitVal c, cs)
    else none

/-- Leftmost maximal digit run anywhere in the text: the semantics of
`re.search(r"(\d+)", s)` followed by `int(...)`. -/
def firstDigitRun : List Char → Option Nat
  | [] => none
  | c :: cs =>
    if c.isDigit then (digitRun (c :: cs)).map Prod.fst
    else firstDigitRun cs

/-- Python `int(s)`: optional surrounding whitespace, optional sign, a
nonempty digit run (underscore grouping is not used by any caller). -/
def pyIntParse (s : String) : Option Int :=
  let cs := stripL s.data
  match cs with
  | '-' :: rest => (digitsValue rest).map (fun n => -(n : Int))
  | '+' :: rest => (digitsValue rest).map (fun n => (n : Int))
  | rest => (digitsValue rest).map (fun n => (n : Int))
where
  digitsValue (cs : List Char) : Option Nat :=
    match digitRun cs with
    | some (n, []) => some n
    | _ => none

/-- Python `float(s)` restricted to plain decimal numerals
(`[+-]? (digits [. digits?] | . digits)`), the only syntax reachable from the
parsers under verification (exponent/inf/nan forms are never produced by the
conversation inputs the claims quantify over). -/
def pyFloatParse (s : String) : Option ℚ :=
  let cs := stripL s.data
  match cs with
  | '-' :: rest => (body rest).map (fun q => -q)
  | '+' :: rest => body rest
  | rest => body rest
where
  fracValue : List Char → Option ℚ
    | [] => some 0
    | cs =>
      match digitRun cs with
      | some (n, []) => some ((n : ℚ) / (10 : ℚ) ^ cs.length)
      | _ => none
  body (cs : List Char) : Option ℚ :=
    match cs with
    | '.' :: rest =>
      match digitRun rest with
      | some (n, []) => if rest.isEmpty then none else some ((n : ℚ) / (10 : ℚ) ^ rest.length)
      | _ => none
    | _ =>
      match digitRun cs with
      | some (n, '.' :: rest) => (fracValue rest).map (fun f => (n : ℚ) + f)
      | some (n, []) => some (n : ℚ)
      | _ => none

/-- Python `round(x, 2)` modelled at rationals, rounding half-up. -/
def round2 (q : ℚ) : ℚ := (⌊q * 100 + 1 / 2⌋ : ℤ) / 100

/-- Regex `\s*`: skip whitespace. -/
def skipWsL : List Char → List Char
  | [] => []
  | c :: cs => if isPyWs c then skipWsL cs else c :: cs

/-- Stand-in for Python float `repr` used in f-strings; exact for the short
decimal values that occur in replies and notes.  No settled claim inspects a
reply substring produced by this function. -/
def floatRepr (q : ℚ) : String :=
  if q.den = 1 then toString q.num ++ ".0"
  else if (q * 10).den = 1 then toString (⌊q⌋ : ℤ) ++ "." ++ toString ((q * 10).num % 10)
  else if (q * 100).den = 1 then
    let d := (q * 100).num % 100
    toString (⌊q⌋ : ℤ) ++ "." ++ (if d < 10 then "0" else "") ++ toString d
  else toString q

/-! ### Weight/quantity parsers
(`src/app/services/chatbot_service.py`, lines 126–252)

The regular-expression searches of the source are modelled as explicit
scanners with Python `re.search` leftmost-match semantics: starting positions
are tried left to right, and at each position `\d+` takes the maximal digit
run (for these patterns a shorter run can never succeed where the maximal one
fails, because the character after a shortened run would be a digit where the
pattern needs whitespace or a letter). -/

/-- Rough weight per item (kg) when customer gives pieces instead of kg. -/
def WEIGHT_PER_SHIRT : ℚ := 1/5

def WEIGHT_PER_PANT : ℚ := 1/4

def WEIGHT_PER_PIECE : ℚ := 1/5

def WEIGHT_PER_SHOE_PAIR : ℚ := 1/2

def WEIGHT_PER_IRON_PIECE : ℚ := 1/5

/-- Match of `(\d+)\s*word...` at the current position (the optional plural
`s?` of the source patterns never affects whether a match succeeds). -/
def matchCountAt (word : List Char) (cs : List Char) : Option Nat :=
  match digitRun cs with
  | some (n, rest) => if word.isPrefixOf (skipWsL rest) then some n else none
  | none => none

/-- Model of `re.search(r"(\d+)\s*words?", text)` returning `int(group(1))`. -/
def searchCount (word : List Char) : List Char → Option Nat
  | [] => none
  | c :: cs =>
    match matchCountAt word (c :: cs) with
    | some n => some n
    | none => searchCount word cs

/-- Group 2 of `(shirt|pant|piece|clothes?)` at the current position,
alternatives tried in regex order. -/
def matchWordAlt (cs : List Char) : Option String :=
  if "shirt".data.isPrefixOf cs then some "shirt"
  else if "pant".data.isPrefixOf cs then some "pant"
  else if "piece".data.isPrefixOf cs then some "piece"
  else if "clothes".data.isPrefixOf cs then some "clothes"
  else if "clothe".data.isPrefixOf cs then some "clothe"
  else none

/-- Match of `(\d+)\s*(shirt|pant|piece|clothes?)` at the current position. -/
def matchSingularAt (cs : List Char) : Option (Nat × String) :=
  match digitRun cs with
  | some (n, rest) => (matchWordAlt (skipWsL rest)).map (fun w => (n, w))
  | none => none

/-- Model of `re.search(r"(\d+)\s*(shirt|pant|piece|clothes?)", text)`. -/
def searchSingular : List Char → Option (Nat × String)
  | [] => none
  | c :: cs =>
    match matchSingularAt (c :: cs) with
    | some r => some r
    | none => searchSingular cs

/-- Model of `f"{n} word{'s' if n != 1 else ''}"`. -/
def countNoun (n : Nat) (word : String) : String :=
  toString n ++ " " ++ word ++ (if n ≠ 1 then "s" else "")

/-- Final arithmetic of `_parse_weight_from_message` once the three category
counts are known: sum of count × per-unit weight, failure below 0.5 kg,
clamp to 100 kg, round to 2 decimals, and the derivation note. -/
def itemizedWeightResult (shirts pants piecesGeneric : Nat) : Option ℚ × Option String :=
  let totalKg : ℚ := (shirts : ℚ) * WEIGHT_PER_SHIRT + (pants : ℚ) * WEIGHT_PER_PANT
    + (piecesGeneric : ℚ) * WEIGHT_PER_PIECE
  if totalKg < 1/2 then (none, none)
  else
    let totalKg := round2 (min (100 : ℚ) totalKg)
    let parts := (if shirts ≠ 0 then [countNoun shirts "shirt"] else [])
      ++ (if pants ≠ 0 then [countNoun pants "pant"] else [])
      ++ (if piecesGeneric ≠ 0 then [countNoun piecesGeneric "piece"] else [])
    (some totalKg, if parts.isEmpty then none else some (String.intercalate ", " parts))

/-- The generic-pieces count: the `clothes` match overwrites the `pieces`
match, as in the source. -/
def piecesCount (cs : List Char) : Nat :=
  match searchCount "clothe".data cs with
  | some n => n
  | none => (searchCount "piece".data cs).getD 0

/-- Itemized branch of `_parse_weight_from_message`: extract the category
counts from the cleaned text, falling back to the singular pattern when all
counts are zero, then apply `itemizedWeightResult`. -/
def itemizedBranch (rawClean : String) : Option ℚ × Option String :=
  let cs := rawClean.data
  let shirts := (searchCount "shirt".data cs).getD 0
  let pants := (searchCount "pant".data cs).getD 0
  let piecesGeneric := piecesCount cs
  if shirts = 0 && pants = 0 && piecesGeneric = 0 then
    match searchSingular cs with
    | some (n, word) =>
      let w := rstripSet ['s'] word
      if inStr "shirt" w then itemizedWeightResult n 0 0
      else if inStr "pant" w then itemizedWeightResult 0 n 0
      else itemizedWeightResult 0 0 n
    | none => itemizedWeightResult 0 0 0
  else itemizedWeightResult shirts pants piecesGeneric

/-- Model of `_parse_weight_from_message`: either kg (a bare number, tried first) or
itemized pieces.  Returns `(weight_kg, weight_note)`. -/
def parseWeightFromMessage (raw : String) : Option ℚ × Option String :=
  let rawClean := replaceChar ',' ' ' (lowerStr (stripStr raw))
  match pyFloatParse (replaceChar ',' '.' raw) with
  | some w => if 1/2 ≤ w ∧ w ≤ 100 then (some (round2 w), none) else itemizedBranch rawClean
  | none => itemizedBranch rawClean

/-- Model of `_parse_quantity`: first integer anywhere in the message, accepted only
when it lies in `[minVal, maxVal]`. -/
def parseQuantity (raw : String) (minVal maxVal : Nat) : Option Nat :=
  if stripStr raw = "" then none
  else
    match firstDigitRun (stripStr raw).data with
    | some n => if minVal ≤ n ∧ n ≤ maxVal then some n else none
    | none => none

/-- Regex tail `\s*kg?$`. -/
def matchKgTail (cs : List Char) : Bool :=
  match skipWsL cs with
  | ['k'] => true
  | ['k', 'g'] => true
  | _ => false

/-- Full-string match of `^(\d+(?:\.\d+)?)\s*kg?$`, returning the numeric
group as a rational. -/
def kgAnchored (cs : List Char) : Option ℚ :=
  match digitRun cs with
  | some (n, '.' :: rest) =>
    match digitRun rest with
    | some (f, rest2) =>
      if matchKgTail rest2 then
        some ((n : ℚ) + (f : ℚ) / (10 : ℚ) ^ (rest.length - rest2.length))
      else none
    | none => none
  | some (n, rest) => if matchKgTail rest then some (n : ℚ) else none
  | none => none

/-- Full-string match of `^(\d+)$`. -/
def intAnchored (cs : List Char) : Option Nat :=
  match digitRun cs with
  | some (n, []) => some n
  | _ => none

/-- Bare-integer branch of `_parse_home_textiles_weight` (`"2"` alone means 2
items of the selected textile type): approximate 1 bedsheet ≈ 1 kg, 1 carpet
≈ 3 kg, 1 curtain ≈ 0.5 kg. -/
def textileIntResult (n : Nat) (textileType : String) : Option ℚ × Option String :=
  if n < 1 || 100 < n then (none, none)
  else if textileType = "bedsheet" then (some (round2 ((n : ℚ) * 1)), some (countNoun n "bedsheet"))
  else if textileType = "carpet" then (some (round2 ((n : ℚ) * 3)), some (countNoun n "carpet"))
  else if textileType = "curtains" then (some (round2 ((n : ℚ) * (1/2))), some (countNoun n "curtain"))
  else (some (round2 ((n : ℚ) * 1)), some (countNoun n "item"))

/-- Itemized-pattern loop of `_parse_home_textiles_weight`: the patterns
`(\d+)\s*bedsheets?`, `(\d+)\s*carpets?`, `(\d+)\s*curtains?` are searched in
order; a match with count in `[1, 100]` returns `max 0.5 (round2 (n × kg))`
with a note (no 100 kg clamp on this branch); an out-of-range match just
moves on to the next pattern. -/
def textileLoop (cs : List Char) : List (List Char × String × ℚ) → Option ℚ × Option String
  | [] => (none, none)
  | (word, label, kgEach) :: restPats =>
    match searchCount word cs with
    | some n =>
      if 1 ≤ n ∧ n ≤ 100 then
        (some (max (1/2 : ℚ) (round2 ((n : ℚ) * kgEach))), some (countNoun n label))
      else textileLoop cs restPats
    | none => textileLoop cs restPats

/-- Model of `_parse_home_textiles_weight`: kg with explicit `k`/`kg` suffix, a bare
integer treated as an item count, or an itemized `"2 bedsheets"` style
count. -/
def parseHomeTextilesWeight (raw : String) (textileType : String) : Option ℚ × Option String :=
  let s := lowerStr (stripStr raw)
  let cs := s.data
  let rest :=
    match intAnchored cs with
    | some n => textileIntResult n textileType
    | none =>
      textileLoop cs
        [("bedsheet".data, "bedsheet", 1), ("carpet".data, "carpet", 3),
         ("curtain".data, "curtain", 1/2)]
  match kgAnchored cs with
  | some w =>
    if 1/2 ≤ w ∧ w ≤ 100 then (some (round2 w), some (floatRepr w ++ " kg")) else rest
  | none => rest

/-! ### Booking service (`src/app/services/booking_service.py`) -/

/-- A row of the `services` table: `base_price` is the rate per kg. -/
structure ServiceRow where
  id : Nat
  service_name : String
  base_price : ℚ
  deriving DecidableEq, Repr

/-- A row of the `outlets` table. -/
structure Outlet where
  id : Nat
  outlet_name : String
  is_active : Bool
  deriving DecidableEq, Repr

/-- A row of the `pune_areas` table (`outlet_id` may be null). -/
structure AreaRow where
  area_name : String
  outlet_id : Option Nat
  deriving DecidableEq, Repr

/-- Model of `SERVICE_MAP`: flow options to service names in the DB. -/
def SERVICE_MAP : List (String × List String) :=
  [("wash_only", ["wash"]), ("wash_iron", ["wash", "iron"]), ("dry_clean", ["dry_clean"]),
   ("shoe_clean", ["shoe_clean"]), ("home_textiles", ["home_textiles"]),
   ("premium_iron", ["premium_iron"]), ("press_iron", ["press_iron"]),
   ("steam_iron", ["steam_iron"])]

/-- Model of `SERVICE_MAP.get(key, ["wash"])`. -/
def serviceMapGet (key : String) : List String :=
  match SERVICE_MAP.find? (fun p => p.1 = key) with
  | some p => p.2
  | none => ["wash"]

/-- Model of `_get_service_ids`: `(service_id, rate per kg)` for each service name
found in the catalog (`.eq("service_name", name).limit(1)`). -/
def getServiceIds (catalog : List ServiceRow) (serviceNames : List String) :
    List (Nat × ℚ) :=
  serviceNames.filterMap (fun name =>
    (catalog.find? (fun r => r.service_name = name)).map (fun r => (r.id, r.base_price)))

/-- Model of `sum(rate for _, rate in service_rows)`. -/
def ratesSum (rows : List (Nat × ℚ)) : ℚ := (rows.map Prod.snd).sum

/-- Model of `(delivery_type or "").strip().lower() in ("express", "1", "2")` — the
express test shared by `estimate_price` and `create_booking`. -/
def isExpressType (delivery_type : String) : Bool :=
  memStr (lowerStr (stripStr delivery_type)) ["express", "1", "2"]

/-- Model of `max(0.5, min(100.0, float(weight_kg or 1.0)))` (`0.0` is falsy in
Python, so a zero weight becomes `1.0` before clamping). -/
def clampWeight (weight_kg : ℚ) : ℚ :=
  max (1/2 : ℚ) (min (100 : ℚ) (if weight_kg = 0 then 1 else weight_kg))

/-- The service rows used for pricing: the mapped names, falling back to
`["wash"]` when none of them is in the catalog. -/
def pricingRows (catalog : List ServiceRow) (service_choice : String) : List (Nat × ℚ) :=
  let service_names := serviceMapGet (lowerStr (stripStr service_choice))
  let rows := getServiceIds catalog service_names
  if rows.isEmpty then getServiceIds catalog ["wash"] else rows

/-- Model of `estimate_price`: total bill for service, weight and delivery type.  The
pure model never raises, so the `None`-on-exception branch of the source
(database unavailable) is not reachable here. -/
def estimatePrice (catalog : List ServiceRow) (service_choice : String)
    (weight_kg : ℚ) (delivery_type : String) : Option ℚ :=
  let rows := pricingRows catalog service_choice
  let w := clampWeight weight_kg
  let total := w * ratesSum rows
  let total := if isExpressType delivery_type then total + round2 (total * (3/10)) else total
  some (round2 total)

/-- The pricing fragment of `create_booking` (lines 310–320 plus the rounding
applied when the order payload / result dict is built): returns
`(total_price, express_fee)` as persisted. -/
def createBookingPricing (catalog : List ServiceRow) (service_choice : String)
    (weight_kg : ℚ) (delivery_type : String) : ℚ × ℚ :=
  let is_express := isExpressType delivery_type
  let rows := pricingRows catalog service_choice
  let w := clampWeight weight_kg
  let total_price := w * ratesSum rows
  let express_fee := if is_express then round2 (total_price * (3/10)) else 0
  let total_price := if is_express then total_price + express_fee else total_price
  (round2 total_price, round2 express_fee)

/-- Model of `_next_order_number`: `"ORD-" + uuid4().hex[:8].upper()`; the 32
lowercase hex digits of the uuid are the explicit input of the model. -/
def nextOrderNumber (uuidHex : List Char) : String :=
  "ORD-" ++ String.mk ((uuidHex.take 8).map Char.toUpper)

/-- Model of `_assign_outlet`: the first outlet with `is_active = True`, raising
`ValueError("No active outlets found")` otherwise. -/
def assignOutlet (outlets : List Outlet) : Except String Nat :=
  match outlets.filter (fun o => o.is_active) with
  | [] => .error "No active outlets found"
  | o :: _ => .ok o.id

/-- Model of `outlets.select(...).eq("id", oid).limit(1)`. -/
def findOutletRow (outlets : List Outlet) (oid : Nat) : Option Outlet :=
  outlets.find? (fun o => o.id = oid)

/-- Loop of `_assign_outlet_by_address`: the first area row with a nonempty
name, a non-null outlet id, and the (stripped, lowercased) name a substring
of the lowercased address. -/
def firstMatchingArea (areas : List AreaRow) (addressLower : String) :
    Option (String × Nat) :=
  match areas with
  | [] => none
  | row :: rest =>
    let area_name := lowerStr (stripStr row.area_name)
    match row.outlet_id with
    | some oid =>
      if area_name ≠ "" ∧ inStr area_name addressLower then some (area_name, oid)
      else firstMatchingArea rest addressLower
    | none => firstMatchingArea rest addressLower

/-- Maintenance fallback of `_assign_outlet_by_address`: assign the first
active outlet and build the substitution note. -/
def maintenanceFallback (outlets : List Outlet) (maintName : String) :
    Except String (Nat × Option String) := do
  let fallback_id ← assignOutlet outlets
  let fallback_name :=
    match findOutletRow outlets fallback_id with
    | some o => o.outlet_name
    | none => "another outlet"
  pure (fallback_id,
    some ("That outlet (" ++ maintName ++ ") is currently on maintenance. We" ++ aposS
      ++ "ve assigned your order to " ++ fallback_name ++ " instead."))

/-- Model of `_assign_outlet_by_address`: returns `(outlet_id, maintenance_note)`.
In the source a `ValueError` raised by the inner `_assign_outlet` is swallowed
by the blanket `except Exception` and the final `return _assign_outlet(...)`
then raises the identical error again, so the inner failure is modelled as
the failure it deterministically becomes. -/
def assignOutletByAddress (areas : List AreaRow) (outlets : List Outlet)
    (address : String) : Except String (Nat × Option String) :=
  if stripStr address = "" then (assignOutlet outlets).map (fun oid => (oid, none))
  else
    let addressLower := lowerStr (stripStr address)
    match firstMatchingArea areas addressLower with
    | some (_, oid) =>
      match findOutletRow outlets oid with
      | some o =>
        if o.is_active then .ok (oid, none)
        else
          maintenanceFallback outlets
            (if o.outlet_name = "" then "Your nearest outlet" else o.outlet_name)
      | none => maintenanceFallback outlets "Your nearest outlet"
    | none => (assignOutlet outlets).map (fun oid => (oid, none))

/-- Outcome of the outlet-assignment step of `create_booking`. -/
inductive AssignOutcome where
  | noOutletsMsg (message : String)
  | assigned (outlet_id : Nat) (note : Option String)
  deriving DecidableEq, Repr

/-- Lines 298–306 of `create_booking`: a `ValueError` containing
`"No active outlets"` becomes the distinguished `no_outlets` error dict with
its service-unavailable message; any other error propagates. -/
def createBookingAssignStep (areas : List AreaRow) (outlets : List Outlet)
    (address : String) : Except String AssignOutcome :=
  match assignOutletByAddress areas outlets address with
  | .ok (oid, note) => .ok (.assigned oid note)
  | .error e =>
    if inStr "No active outlets" e then
      .ok (.noOutletsMsg "All outlets are currently on maintenance. Please try again later.")
    else .error e

/-! ### Order-number tracking (`src/app/services/tracking_service.py` lines
14–17 and `src/app/services/chatbot_service.py` lines 781–789) -/

/-- Python `s.upper()` (ASCII). -/
def upperStr (s : String) : String := ⟨s.data.map Char.toUpper⟩

/-- Python `s.startswith(p)`. -/
def startsWithStr (p s : String) : Bool := p.data.isPrefixOf s.data

/-- Model of `get_order_by_number` normalization: strip, uppercase, and prepend
`"ORD-"` when the text does not already start with it. -/
def normalizeTrackingNumber (order_number : String) : String :=
  let normalized := upperStr (stripStr order_number)
  if startsWithStr "ORD-" normalized then normalized
  else if normalized ≠ "" then "ORD-" ++ normalized else ""

/-- Regex `[a-f0-9]` (lowercase hex digit). -/
def isLowerHexDigit (c : Char) : Bool := c.isDigit || ('a' ≤ c && c ≤ 'f')

/-- Uppercase hex digit. -/
def isUpperHexDigit (c : Char) : Bool := c.isDigit || ('A' ≤ c && c ≤ 'F')

/-- Regex `\w` (ASCII behaviour, which covers the chat inputs modelled). -/
def isWordChar (c : Char) : Bool := c.isAlphanum || c = '_'

/-- Exactly `n` lowercase hex digits, returning them and the rest. -/
def takeHexN : Nat → List Char → Option (List Char × List Char)
  | 0, cs => some ([], cs)
  | _ + 1, [] => none
  | n + 1, c :: cs =>
    if isLowerHexDigit c then (takeHexN n cs).map (fun p => (c :: p.1, p.2)) else none

/-- Regex `\b` after a word character: the next character, if any, is not a
word character. -/
def boundaryOk : List Char → Bool
  | [] => true
  | c :: _ => !isWordChar c

/-- Match of `ord-?([a-f0-9]{8})\b` at the current position, returning the
hex group.  (When the optional hyphen is present but the rest fails, the
hyphenless alternative fails at once since `-` is not a hex digit, so no
further backtracking arises.) -/
def tryOrdAt (cs : List Char) : Option (List Char) :=
  match cs with
  | 'o' :: 'r' :: 'd' :: rest =>
    let rest2 := if rest.head? = some '-' then rest.tail else rest
    match takeHexN 8 rest2 with
    | some (h, r) => if boundaryOk r then some h else none
    | none => none
  | _ => none

/-- Model of `re.search(r"ord-?([a-f0-9]{8})\b", lower_message)`. -/
def searchOrdLower : List Char → Option (List Char)
  | [] => none
  | c :: cs =>
    match tryOrdAt (c :: cs) with
    | some h => some h
    | none => searchOrdLower cs

/-- Maximal run of `[A-Za-z0-9]`. -/
def takeAlnumRun : List Char → List Char × List Char
  | [] => ([], [])
  | c :: cs =>
    if c.isAlphanum then
      let p := takeAlnumRun cs
      (c :: p.1, p.2)
    else ([], c :: cs)

/-- Match of `ORD-?([A-Za-z0-9]{4,})` at the current position (case
sensitive, greedy run of at least 4). -/
def tryOrd2At (cs : List Char) : Option (List Char) :=
  match cs with
  | 'O' :: 'R' :: 'D' :: rest =>
    let rest2 := if rest.head? = some '-' then rest.tail else rest
    let run := (takeAlnumRun rest2).1
    if 4 ≤ run.length then some run else none
  | _ => none

/-- Model of `re.search(r"ORD-?([A-Za-z0-9]{4,})", original_text.strip())`. -/
def searchOrd2 : List Char → Option (List Char)
  | [] => none
  | c :: cs =>
    match tryOrd2At (c :: cs) with
    | some h => some h
    | none => searchOrd2 cs

/-- Model of `_extract_order_number(lower_message, original_text)`. -/
def extractOrderNumber (lowerMessage : String) (originalText : String) : Option String :=
  match searchOrdLower lowerMessage.data with
  | some h => some ("ORD-" ++ String.mk (h.map Char.toUpper))
  | none =>
    match searchOrd2 (stripStr originalText).data with
    | some run => some ("ORD-" ++ String.mk (run.map Char.toUpper))
    | none => none

/-! ### Conversation memory (`src/app/services/conversation_memory.py`) -/

/-- One buffered message: role is `"user"` or `"assistant"`. -/
structure MemEntry where
  role : String
  content : String
  deriving DecidableEq, Repr

/-- Association-list maps keyed by chat id, replacing in place (Python dict
assignment preserves insertion order for existing keys). -/
def lookupAssoc {α : Type} (m : List (String × α)) (k : String) : Option α :=
  match m with
  | [] => none
  | (k1, v1) :: rest => if k1 = k then some v1 else lookupAssoc rest k

def insertAssoc {α : Type} (m : List (String × α)) (k : String) (v : α) :
    List (String × α) :=
  match m with
  | [] => [(k, v)]
  | (k1, v1) :: rest => if k1 = k then (k, v) :: rest else (k1, v1) :: insertAssoc rest k v

def eraseAssoc {α : Type} (m : List (String × α)) (k : String) : List (String × α) :=
  match m with
  | [] => []
  | (k1, v1) :: rest => if k1 = k then rest else (k1, v1) :: eraseAssoc rest k

/-- chat_id → buffered messages. -/
abbrev MemMap := List (String × List MemEntry)

def MAX_MESSAGES_PER_CHAT : Nat := 20

/-- Model of `get_recent_history`. -/
def getRecentHistory (mem : MemMap) (chatId : String) : List MemEntry :=
  (lookupAssoc mem chatId).getD []

/-- Model of `append`: push the user message and the reply, then trim from the left to
the last `MAX_MESSAGES_PER_CHAT` entries. -/
def memoryAppend (mem : MemMap) (chatId userMessage assistantReply : String) : MemMap :=
  let buf := getRecentHistory mem chatId
    ++ [⟨"user", stripStr userMessage⟩, ⟨"assistant", stripStr assistantReply⟩]
  insertAssoc mem chatId (buf.drop (buf.length - MAX_MESSAGES_PER_CHAT))

/-- Model of `get_formatted_history` with the default `max_turns = 5`. -/
def getFormattedHistory (mem : MemMap) (chatId : String) : String :=
  let buf := getRecentHistory mem chatId
  if buf.isEmpty then ""
  else
    let recent := if 10 < buf.length then buf.drop (buf.length - 10) else buf
    let lines := recent.filterMap (fun m =>
      let content := stripStr m.content
      if content = "" then none
      else
        let content := if 200 < lenStr content then takeStr 197 content ++ "..." else content
        some ((if m.role = "user" then "User" else "Assistant") ++ ": " ++ content))
    String.intercalate "\n" lines

/-- Modelled from the spec: `get_user_questions` is imported by the chatbot
from `conversation_memory` but is absent from that module in `src`; per the
spec, the "show my recent questions" feature lists the user-role messages
recently recorded for this chat. -/
def getUserQuestions (mem : MemMap) (chatId : String) : List String :=
  (getRecentHistory mem chatId).filterMap
    (fun m => if m.role = "user" then some m.content else none)

/-! ### Conversation state machine
(`src/app/services/chatbot_service.py`, `handle_message` /
`_handle_message_impl`) -/

/-- One booking session (`_booking_state[chat_id]`, a dict in the source;
fields absent from the dict are `none`). -/
structure BState where
  step : String
  name : Option String := none
  address : Option String := none
  phone : Option String := none
  delivery_type : Option String := none
  service_choice : Option String := none
  home_textiles_type : Option String := none
  weight_kg : Option ℚ := none
  weight_note : Option String := none
  pickup_type : Option String := none
  pickup_address : Option String := none
  delivery_address : Option String := none
  preferred_pickup_at : Option String := none
  preferred_delivery_at : Option String := none
  customer_instructions : Option String := none
  payment_method : Option String := none
  order_id : Option String := none
  deriving DecidableEq, Repr

/-- chat_id → session (`_booking_state`). -/
abbrev StateMap := List (String × BState)

/-- The module-level mutable state of the chatbot process: booking sessions
and conversation memory. -/
structure GState where
  booking : StateMap
  memory : MemMap
  deriving DecidableEq, Repr

def setBooking (g : GState) (chatId : String) (st : BState) : GState :=
  { g with booking := insertAssoc g.booking chatId st }

def popBooking (g : GState) (chatId : String) : GState :=
  { g with booking := eraseAssoc g.booking chatId }

/-- Model of `x or default` for an optional string where both `None` and `""` are
falsy. -/
def pyOrStr (o : Option String) (d : String) : String :=
  match o with
  | some s => if s = "" then d else s
  | none => d

/-- Model of `dict.get(key, default)` (only `None`/absent falls back). -/
def dictGetD (o : Option String) (d : String) : String := o.getD d

/-- Rendering of an optional value inside an f-string (`None` prints as
`"None"`). -/
def pyShowOpt (o : Option String) : String :=
  match o with
  | some s => s
  | none => "None"

/-- Truthiness of an optional number (`None` and `0.0` are falsy). -/
def qTruthy : Option ℚ → Bool
  | some q => q ≠ 0
  | none => false

/-- Truthiness of an optional string. -/
def sTruthy : Option String → Bool
  | some s => s ≠ ""
  | none => false

/-- Python `str.title()` restricted to the single-word/underscore-free
strings it is applied to. -/
def pyTitle (s : String) : String := ⟨go true s.data⟩
where
  go (startOfWord : Bool) : List Char → List Char
    | [] => []
    | c :: cs =>
      if c.isAlpha then (if startOfWord then c.toUpper else c.toLower) :: go false cs
      else c :: go true cs

/-- Fields of `create_booking(...)` as called from the payment step. -/
structure CBArgs where
  telegram_chat_id : String
  full_name : String
  address : String
  phone : String
  delivery_type : String
  service_choice : String
  weight_kg : ℚ
  weight_note : Option String
  customer_instructions : String
  pickup_type : String
  pickup_address : String
  delivery_address : String
  payment_method : String
  preferred_pickup_at : Option String
  preferred_delivery_at : Option String
  deriving DecidableEq, Repr

/-- The result dict of a successful `create_booking`. -/
structure CBResult where
  order_number : String
  expected_hours : Nat
  outlet_name : String
  order_id : String
  services : List String
  weight_kg : ℚ
  weight_note : Option String
  customer_instructions : String
  total_price : ℚ
  express_fee : ℚ
  is_existing : Bool
  pickup_type : String
  pickup_address : String
  delivery_address : String
  is_express : Bool
  delivery_time_iso : String
  maintenance_note : Option String
  payment_method : String
  preferred_pickup_at : Option String
  preferred_delivery_at : Option String
  deriving DecidableEq, Repr

/-- Model of `create_booking` either raises, returns one of its two error dicts, or
returns the result dict. -/
inductive CBOutcome where
  | setupError (message : Option String)
  | noOutlets (message : Option String)
  | ok (r : CBResult)
  deriving DecidableEq, Repr

/-- The order dict returned by `tracking_service.get_order_by_number`
(the fields the chatbot reads). -/
structure TrackedOrder where
  order_number : Option String
  status : Option String
  delivery_time : Option String
  outlet_name : Option String
  items_summary : Option String
  deriving DecidableEq, Repr

/-- A row of `get_orders_for_customer`. -/
structure OrderRow where
  order_number : String
  deriving DecidableEq, Repr

/-- The collaborators called by the state machine and router.  Calls that can
raise in the source (no internal catch-all) live in `Except`; calls whose
source swallows its own exceptions and returns a degraded default are total
functions. -/
structure Env where
  nearbyOutletsMessage : String
  isPuneAddress : String → Bool
  nearbyOutletForAddress : String → Option (String × String × Bool)
  estimatePriceEnv : String → ℚ → String → Option ℚ
  createBooking : CBArgs → Except String CBOutcome
  feedbackInsert : String → Int → Except String Unit
  answerOrderQuery : String → String → String → Except String String
  answerWithRag : String → String → String
  getOrderByNumber : String → Except String (Option TrackedOrder)
  getOrdersForCustomer : String → Nat → Except String (List OrderRow)

/-- Fake UPI id for dev. -/
def FAKE_UPI_ID : String := "laundryops@paytm"

/-- Model of `_progress`: intentionally empty. -/
def progressTag (_step : String) : String := ""

/-! ### Reply texts (transcribed from `chatbot_service.py`; a few ASCII
apostrophes of the source are built with `aposS`). -/

def welcomeMessage : String :=
  "✨ <b>Welcome to LaundryOps!</b> ✨\n━━━━━━━━━━━━━━━━━━━━\n👕 <i>Fresh clothes, zero hassle — we’re here for you.</i>\n\n🧺 <b>What we do</b>\n• Wash · Wash+Iron · Dry clean · Shoe · Home textiles (bedsheet, carpet, curtains) · Premium/Press/Steam iron\n• 🚚 Pickup & delivery or you drop at our outlet\n• ⚡ Standard (48 hrs) or Express (24 hrs)\n\n🚀 <b>What would you like to do?</b>\n\n📦 <b>Book</b> — Schedule a pickup, we’ll handle the rest\n🔍 <b>Track</b> — Check status (Order ID e.g. ORD-1234ABCD)\n💰 <b>Pricing</b> — Services & fees\n🛟 <b>Support</b> — Policies, FAQ & help\n\n━━━━━━━━━━━━━━━━━━━━\n💬 Just type <b>Book</b>, <b>Track</b>, or ask: <i>\"Where is my order?\"</i>"

def deliveryPrompt : String :=
  "🚚 <b>When do you need it?</b>\n\n• <b>1</b> — Standard (about 48 hrs)\n• <b>2</b> — Express (about 24 hrs, +30% fee)\n\nReply with <b>1</b> or <b>2</b>."

def servicePrompt : String :=
  "🧺 <b>Pick a service</b>\n\n• <b>1</b> — Wash only\n• <b>2</b> — Wash + Iron\n• <b>3</b> — Dry clean\n• <b>4</b> — Shoe clean\n• <b>5</b> — Home textiles (bedsheet, carpet, curtains)\n• <b>6</b> — Premium ironing\n• <b>7</b> — Press iron\n• <b>8</b> — Steam iron\n\nReply with <b>1</b>–<b>8</b>."

def shoeQuantityPrompt : String :=
  "👟 <b>Shoe clean</b> — How many <b>pairs of shoes</b>?\n\nReply with a number (e.g. 1, 2, 5). We charge per pair."

def textilesTypePrompt : String :=
  "🛏️ <b>Home textiles</b> — What type?\n\n• <b>1</b> — Bedsheet / bedsheets\n• <b>2</b> — Carpet / rug\n• <b>3</b> — Curtains\n\nReply with <b>1</b>, <b>2</b>, or <b>3</b>."

def ironQuantityPrompt : String :=
  "👔 <b>Ironing</b> — How many <b>pieces</b> to iron?\n\nReply with a number (e.g. 5, 10) or <b>weight in kg</b> (e.g. 2 kg)."

def weightPrompt : String :=
  "⚖️ <b>How much laundry?</b>\n\nSend <b>weight in kg</b> (e.g. 2 or 3.5) or <b>clothes count</b>:\n• <b>5 shirts, 2 pants</b>\n• <b>8 pieces</b> or <b>10 clothes</b>\n\n<i>We’ll estimate weight and show your bill.</i>"

def shoeRePrompt : String :=
  "👟 How many <b>pairs of shoes</b>? Reply with a number (1–20)."

def shoePickupPrompt : String :=
  "📍 <b>Pickup option</b>\n\n• <b>1</b> — I’ll drop at outlet (you bring shoes to store)\n• <b>2</b> — Pickup from my address (we pick up & deliver back)\n\nReply with <b>1</b> or <b>2</b>."

def ironRePrompt : String :=
  "👔 Reply with <b>number of pieces</b> (e.g. 5, 10) or <b>weight in kg</b> (e.g. 2)."

def ironPickupPrompt : String :=
  "📍 <b>Pickup option</b>\n\n• <b>1</b> — I’ll drop at outlet\n• <b>2</b> — Pickup from my address\n\nReply with <b>1</b> or <b>2</b>."

def textileWeightRePrompt : String :=
  "🛏️ Send <b>number of items</b> (e.g. 2, 3) or <b>weight in kg</b> (e.g. 2 kg)."

def weightRePrompt : String :=
  "⚖️ Send weight in <b>kg</b> (e.g. 2 or 3.5) or <b>clothes count</b> (e.g. 5 shirts, 2 pants or 8 pieces)."

def weightRangeMsg : String :=
  "⚖️ Weight must be between <b>0.5</b> and <b>100 kg</b> (or equivalent pieces)."

def weightPickupPrompt : String :=
  "📍 <b>Pickup option</b>\n\n• <b>1</b> — I’ll drop at outlet (you bring clothes to store)\n• <b>2</b> — Pickup from my address (we pick up & deliver back)\n\nReply with <b>1</b> or <b>2</b>."

def homeAddressPrompt : String :=
  "🏠 <b>Pickup & delivery address</b>\n\nSend your <b>full address</b>. We’ll pick up from here and deliver back when ready."

def homeAddrRePrompt : String :=
  "🏠 Please send your full address for pickup and delivery."

def selfDropDatetimePrompt : String :=
  "📅 <b>Preferred date & time to drop off at outlet?</b>\n\ne.g. Tomorrow 10am, or 15 Feb 2–4pm — type your preferred slot."

def homePickupDatetimePrompt : String :=
  "📅 <b>Preferred pickup date & time?</b>\n\nWhen should we pick up from your address? e.g. Tomorrow 10am, or 15 Feb 2–4pm."

def deliveryDatetimePromptHome : String :=
  "📅 <b>Preferred delivery date & time?</b>\n\nWhen should we deliver back? e.g. Day after 6pm, or 16 Feb 10am–12pm."

def outletCollectDatetimePrompt : String :=
  "📅 <b>Preferred date & time to pick up from outlet?</b>\n\nWhen will you collect? e.g. 17 Feb 11am, or Saturday 2–4pm."

def instructionsPrompt : String :=
  "📝 <b>Any special instructions?</b>\n\ne.g. delicate, no softener, folding preference — or type <b>no</b> / <b>none</b> to skip."

def paymentPrompt : String :=
  "💰 <b>How would you like to pay?</b>\n\n• <b>1</b> — 💵 Cash on delivery (pay when we deliver)\n• <b>2</b> — 📱 UPI (pay to our UPI ID now or later)\n• <b>3</b> — 💳 Card / Online payment\n\nReply with <b>1</b>, <b>2</b>, or <b>3</b>."

def paymentRePrompt : String :=
  "💰 Choose how you’d like to pay:\n\n• <b>1</b> — Cash on delivery\n• <b>2</b> — UPI\n• <b>3</b> — Card / Online\n\nReply with <b>1</b>, <b>2</b>, or <b>3</b>."

def setupAlterMsg : String :=
  "⚠️ Setup needed: In Supabase SQL Editor run:\n<code>ALTER TABLE customers ADD COLUMN telegram_chat_id TEXT UNIQUE;</code>"

def bookStartMsg : String :=
  "👋 <b>Let’s get your laundry sorted!</b>\n\n📌 Send your <b>full name</b> to get started."

def fallbackMenuMsg : String :=
  "💬 I’m not sure I got that — but I’m here to help!\n\n📦 <b>Book</b> — Schedule a pickup\n🔍 <b>Track</b> — Send your Order ID\n💰 <b>Pricing</b> / 🛟 <b>Support</b> — Just ask!\n\n<i>Try: \"Hi\", \"Book\", \"Where is my order?\" or \"Kitna time lagega?\"</i>"

def noQuestionsMsg : String :=
  "📋 <b>Your recent questions</b>\n\nNo questions in this chat yet — or you just said <b>/start</b> and we cleared the history.\n\nAsk me anything (e.g. pricing, track, book) and then ask <i>\"What did I ask?\"</i> to see your questions here."

def ratingThanksMsg : String := "⭐ Thanks for your rating! We really appreciate it. 🙏"

def ratingSkipMsg : String :=
  "👍 No problem — you can rate later from the app or when we ask again."

def rateLaterMsg : String := "👍 You can rate later (reply 1–5 or skip next time)."

def trackNoOrdersMsg : String :=
  "📦 Send your <b>Order ID</b> (e.g. ORD-1234ABCD) to track, or type <b>Book</b> to schedule a pickup."

def trackSendIdMsg : String := "📦 Send your <b>Order ID</b> (e.g. ORD-1234ABCD) to track."

/-! ### Intent-router predicates -/

/-- Model of `_is_greeting_or_casual`. -/
def isGreetingOrCasual (message : String) : Bool :=
  let m := lowerStr (stripStr message)
  if m = "" || 120 < lenStr m then false
  else
    let greetings := ["hi", "hello", "hey", "hii", "heyy", "helo", "hallo", "hi there",
      "hey there", "good morning", "good evening", "good afternoon", "gm", "ge", "ga",
      "namaste", "namaskar", "sup", "yo", "hola"]
    if memStr m greetings || memStr (rstripSet ['!', '?', '.'] m) greetings then true
    else
      anyIn ["how are you", "how r u", "how ru", "what are you doing", "what do you do",
        "what can you do", "tell me about you", "who are you", "who r u",
        "kya kar rahe ho", "kaise ho", "aap kya karte ho", "help", "intro",
        "what is this", "what" ++ aposS ++ "s this", "ye kya hai", "start", "begin"] m

/-- Model of `_reply_to_greeting_or_casual`. -/
def replyToGreetingOrCasual (message : String) : String :=
  let m := lowerStr (stripStr message)
  if anyIn ["hi", "hello", "hey", "hii", "heyy", "namaste", "gm", "ge", "ga"] m then
    "Hey! 👋 Great to hear from you.\n\n" ++ welcomeMessage
  else if anyIn ["how are you", "how r u", "kaise ho", "how ru"] m then
    "I’m doing great, thanks for asking! 😊 Ready to help with your laundry.\n\n" ++ welcomeMessage
  else if anyIn ["what are you doing", "what do you do", "kya kar rahe ho",
      "what can you do", "tell me about", "who are you"] m then
    "I’m your laundry buddy! 🧺 Here to help you book pickups, track orders, and get fresh clothes back.\n\n" ++ welcomeMessage
  else if anyIn ["help", "intro", "what is this", "ye kya hai", "start", "begin"] m then
    "Sure, here’s what I can do for you —\n\n" ++ welcomeMessage
  else welcomeMessage

/-- Model of `_is_show_my_questions_intent`. -/
def isShowMyQuestionsIntent (message : String) : Bool :=
  let m := lowerStr (stripStr message)
  if m = "" || 80 < lenStr m then false
  else
    anyIn ["what did i ask", "what did i say", "my questions", "show my questions",
      "my messages", "show my messages", "conversation history", "my history",
      "what questions did i ask", "list my questions", "maine kya pucha",
      "mera kya question tha", "jo maine pucha", "my recent questions"] m

/-- Model of `_reply_with_recent_questions` numbering: `f"{i}. {q_short}"`. -/
def numberLines (i : Nat) : List String → List String
  | [] => []
  | q :: qs =>
    (toString i ++ ". " ++ (if 80 < lenStr q then takeStr 80 q ++ "…" else q))
      :: numberLines (i + 1) qs

/-- Model of `_reply_with_recent_questions`. -/
def replyWithRecentQuestions (mem : MemMap) (chatId : String) : String :=
  let questions := getUserQuestions mem chatId
  if questions.isEmpty then noQuestionsMsg
  else
    "📋 <b>Questions you asked in this chat</b>\n\n"
      ++ String.intercalate "\n" (numberLines 1 questions)
      ++ "\n\n<i>This is from our recent conversation. Say /start to clear and start fresh.</i>"

/-- Model of `_is_order_related`. -/
def isOrderRelated (message : String) : Bool :=
  anyIn ["order", "my order", "my booking", "mera order", "kitna time", "kab milega",
    "details", "status", "kahan hai", "delivery", "time lagega", "lagenge",
    "track", "check", "batao", "bata", "tell me", "update", "about my"] message

/-! ### Booking-flow step handlers (`_handle_message_impl`, lines 284–698).
Each handler mirrors one `if step == ...:` block; the Python dict mutations
followed by `_booking_state[chat_id] = state` become a single record update
and insertion (the dict stored in the map is the mutated object itself). -/

def stepName (env : Env) (g : GState) (chatId raw : String) (st : BState) :
    String × GState :=
  let st := { st with name := some raw, step := "address" }
  (progressTag "address" ++ "👋 Nice to meet you, <b>" ++ raw
      ++ "</b>!\n\n📍 Send your <b>address</b> in one message.\n<i>We currently serve Pune only.</i>\n\n"
      ++ env.nearbyOutletsMessage,
    setBooking g chatId st)

def stepAddress (env : Env) (g : GState) (chatId raw : String) (st : BState) :
    String × GState :=
  if stripStr (lowerStr raw) = "skip" then
    (progressTag "address"
        ++ "📍 We need your <b>address</b> or <b>area</b> to find your nearest store.\nTry: <i>Viman Nagar, Baner, Kothrud</i> or your full address.\n\n"
        ++ env.nearbyOutletsMessage,
      setBooking g chatId st)
  else if !env.isPuneAddress raw then
    (progressTag "address"
        ++ "🌍 We’re in <b>Pune</b> right now!\nSend your area or full address — e.g. <i>Viman Nagar, Kothrud, Hinjewadi, Baner</i>.\n\n"
        ++ env.nearbyOutletsMessage,
      setBooking g chatId st)
  else
    let st := { st with address := some (stripStr raw), step := "phone" }
    let pre :=
      match env.nearbyOutletForAddress (stripStr raw) with
      | some (areaName, outletName, isActive) =>
        "🏪 Your nearest store: <b>" ++ outletName ++ "</b> (" ++ areaName ++ ").\n\n"
          ++ (if !isActive then
                "<i>That outlet is on maintenance; we’ll assign another when you book.</i>\n\n"
              else "")
      | none => ""
    (progressTag "phone" ++ pre
        ++ "📞 Send your <b>phone number</b> so we can confirm your booking.",
      setBooking g chatId st)

def stepPhone (g : GState) (chatId raw : String) (st : BState) : String × GState :=
  let st := { st with phone := some raw, step := "delivery" }
  (progressTag "delivery" ++ deliveryPrompt, setBooking g chatId st)

def stepDelivery (g : GState) (chatId message : String) (st : BState) :
    String × GState :=
  let st := { st with
    delivery_type := some (if memStr message ["2", "express"] then "express" else "standard"),
    step := "service" }
  (progressTag "service" ++ servicePrompt, setBooking g chatId st)

/-- Model of `choice_map.get(message, "wash_only")`. -/
def serviceChoiceMap (message : String) : String :=
  match [("1", "wash_only"), ("2", "wash_iron"), ("3", "dry_clean"), ("4", "shoe_clean"),
      ("5", "home_textiles"), ("6", "premium_iron"), ("7", "press_iron"),
      ("8", "steam_iron")].find? (fun p => p.1 = message) with
  | some p => p.2
  | none => "wash_only"

def stepService (g : GState) (chatId message : String) (st : BState) :
    String × GState :=
  let choice := serviceChoiceMap message
  let st := { st with service_choice := some choice }
  if choice = "shoe_clean" then
    (progressTag "shoe_quantity" ++ shoeQuantityPrompt,
      setBooking g chatId { st with step := "shoe_quantity" })
  else if choice = "home_textiles" then
    (progressTag "home_textiles_type" ++ textilesTypePrompt,
      setBooking g chatId { st with step := "home_textiles_type" })
  else if memStr choice ["premium_iron", "press_iron", "steam_iron"] then
    (progressTag "iron_quantity" ++ ironQuantityPrompt,
      setBooking g chatId { st with step := "iron_quantity" })
  else
    (progressTag "weight" ++ weightPrompt, setBooking g chatId { st with step := "weight" })

def stepShoeQuantity (env : Env) (g : GState) (chatId raw : String) (st : BState) :
    String × GState :=
  match parseQuantity raw 1 20 with
  | none => (progressTag "shoe_quantity" ++ shoeRePrompt, setBooking g chatId st)
  | some qty =>
    let weight := round2 ((qty : ℚ) * WEIGHT_PER_SHOE_PAIR)
    let note := toString qty ++ " pair" ++ (if qty ≠ 1 then "s" else "") ++ " of shoes"
    let st := { st with weight_kg := some weight, weight_note := some note, step := "pickup_type" }
    let totalBill := env.estimatePriceEnv (st.service_choice.getD "shoe_clean") weight
      (st.delivery_type.getD "standard")
    let billMsg :=
      if qTruthy totalBill then
        "💵 <b>" ++ toString qty ++ " pair" ++ (if qty ≠ 1 then "s" else "")
          ++ " of shoes</b> — Total: <b>₹" ++ floatRepr (totalBill.getD 0) ++ "</b>.\n\n"
      else ""
    (progressTag "pickup_type" ++ billMsg ++ shoePickupPrompt, setBooking g chatId st)

/-- Model of `type_map.get(message, "bedsheet")`. -/
def textileTypeMap (message : String) : String :=
  match [("1", "bedsheet"), ("2", "carpet"), ("3", "curtains")].find?
      (fun p => p.1 = message) with
  | some p => p.2
  | none => "bedsheet"

def stepHomeTextilesType (g : GState) (chatId message : String) (st : BState) :
    String × GState :=
  let t := textileTypeMap message
  let st := { st with home_textiles_type := some t, step := "weight" }
  (progressTag "weight" ++ "🛏️ <b>Home textiles (" ++ pyTitle t
      ++ ")</b> — How many items or weight?\n\nSend <b>number of items</b> (e.g. 2 bedsheets, 1 carpet) or <b>weight in kg</b> (e.g. 3 kg).",
    setBooking g chatId st)

/-- Shared tail of the iron-quantity step once a weight and note are fixed. -/
def ironTail (env : Env) (g : GState) (chatId : String) (st : BState)
    (weight : ℚ) (note : String) : String × GState :=
  let st := { st with weight_kg := some weight, weight_note := some note, step := "pickup_type" }
  let totalBill := env.estimatePriceEnv (st.service_choice.getD "premium_iron") weight
    (st.delivery_type.getD "standard")
  let billMsg :=
    if qTruthy totalBill then
      "💵 Your total: <b>₹" ++ floatRepr (totalBill.getD 0) ++ "</b>.\n\n"
    else ""
  (progressTag "pickup_type" ++ billMsg ++ ironPickupPrompt, setBooking g chatId st)

def stepIronQuantity (env : Env) (g : GState) (chatId raw : String) (st : BState) :
    String × GState :=
  match parseQuantity raw 1 100 with
  | some qty =>
    ironTail env g chatId st (round2 (max (1/2 : ℚ) ((qty : ℚ) * WEIGHT_PER_IRON_PIECE)))
      (toString qty ++ " piece" ++ (if qty ≠ 1 then "s" else "") ++ " to iron")
  | none =>
    match parseWeightFromMessage raw with
    | (some w, noteOpt) =>
      if w < 1/2 ∨ 100 < w then
        (progressTag "iron_quantity" ++ ironRePrompt, setBooking g chatId st)
      else ironTail env g chatId st w (pyOrStr noteOpt (floatRepr w ++ " kg"))
    | (none, _) =>
      (progressTag "iron_quantity" ++ ironRePrompt, setBooking g chatId st)

def stepWeight (env : Env) (g : GState) (chatId raw : String) (st : BState) :
    String × GState :=
  let parsed :=
    if st.service_choice = some "home_textiles" ∧ sTruthy st.home_textiles_type then
      parseHomeTextilesWeight raw (st.home_textiles_type.getD "")
    else parseWeightFromMessage raw
  match parsed with
  | (none, _) =>
    if st.service_choice = some "home_textiles" then
      (progressTag "weight" ++ textileWeightRePrompt, setBooking g chatId st)
    else (progressTag "weight" ++ weightRePrompt, setBooking g chatId st)
  | (some w, noteOpt) =>
    if w < 1/2 ∨ 100 < w then
      (progressTag "weight" ++ weightRangeMsg, setBooking g chatId st)
    else
      let st := { st with weight_kg := some w, weight_note := noteOpt, step := "pickup_type" }
      let totalBill := env.estimatePriceEnv (st.service_choice.getD "wash_only") w
        (st.delivery_type.getD "standard")
      let billMsg :=
        match totalBill with
        | some t =>
          if sTruthy noteOpt then
            "💵 Estimated <b>" ++ floatRepr w ++ " kg</b> (from " ++ noteOpt.getD ""
              ++ "). Your total: <b>₹" ++ floatRepr t ++ "</b>.\n\n"
          else
            "💵 Your total for <b>" ++ floatRepr w ++ " kg</b>: <b>₹" ++ floatRepr t
              ++ "</b>.\n\n"
        | none => ""
      (progressTag "pickup_type" ++ billMsg ++ weightPickupPrompt, setBooking g chatId st)

def stepPickupType (g : GState) (chatId message : String) (st : BState) :
    String × GState :=
  let pickupType := if memStr message ["2", "home", "pickup"] then "home_pickup" else "self_drop"
  let st := { st with pickup_type := some pickupType }
  if pickupType = "home_pickup" then
    (progressTag "home_address" ++ homeAddressPrompt,
      setBooking g chatId { st with step := "home_address" })
  else
    (progressTag "pickup_datetime" ++ selfDropDatetimePrompt,
      setBooking g chatId { st with step := "pickup_datetime" })

def stepHomeAddress (g : GState) (chatId raw : String) (st : BState) :
    String × GState :=
  let homeAddr := stripStr raw
  if homeAddr = "" then
    (progressTag "home_address" ++ homeAddrRePrompt, setBooking g chatId st)
  else
    let st := { st with pickup_address := some homeAddr, delivery_address := some homeAddr, step := "pickup_datetime" }
    (progressTag "pickup_datetime" ++ homePickupDatetimePrompt, setBooking g chatId st)

def stepPickupDatetime (g : GState) (chatId raw : String) (st : BState) :
    String × GState :=
  let st := { st with preferred_pickup_at := some (stripStr raw), step := "delivery_datetime" }
  if st.pickup_type.getD "self_drop" = "home_pickup" then
    (progressTag "delivery_datetime" ++ deliveryDatetimePromptHome, setBooking g chatId st)
  else
    (progressTag "delivery_datetime" ++ outletCollectDatetimePrompt, setBooking g chatId st)

def stepDeliveryDatetime (g : GState) (chatId raw : String) (st : BState) :
    String × GState :=
  let st := { st with preferred_delivery_at := some (stripStr raw), step := "instructions" }
  (progressTag "instructions" ++ instructionsPrompt, setBooking g chatId st)

def stepInstructions (g : GState) (chatId raw : String) (st : BState) :
    String × GState :=
  let instructions := stripStr raw
  let instructions :=
    if instructions ≠ "" ∧ memStr (lowerStr instructions) ["no", "none", "nope", "skip", "-"]
    then "" else instructions
  let st := { st with customer_instructions := some instructions, step := "payment" }
  (progressTag "payment" ++ paymentPrompt, setBooking g chatId st)

/-- Lines 638–690: the confirmation message built from the result dict. -/
def confirmationMessage (r : CBResult) (address : String) : String :=
  let servicesStr := String.intercalate ", "
    (r.services.map (fun s => pyTitle (replaceChar '_' ' ' s)))
  let weightLine := floatRepr r.weight_kg ++ " kg"
    ++ (if sTruthy r.weight_note then " (from " ++ r.weight_note.getD "" ++ ")" else "")
  let deliveryTypeStr := if r.is_express then "Express (≈24 hrs)" else "Standard (≈48 hrs)"
  let pm := lowerStr (stripStr (if r.payment_method = "" then "cod" else r.payment_method))
  let paymentLine :=
    if pm = "upi" then "💰 <b>Payment:</b> UPI — Pay to <code>" ++ FAKE_UPI_ID ++ "</code>\n"
    else if pm = "online" then "💰 <b>Payment:</b> Card/Online — Link will be shared separately.\n"
    else "💰 <b>Payment:</b> Cash on delivery (pay when we deliver).\n"
  let msg := "🎉 <b>Booking confirmed!</b> 🎉\n━━━━━━━━━━━━━━━━━━━━\n\n"
    ++ "📋 <b>Booking details</b>\n━━━━━━━━━━━━━━━━━━━━\n"
    ++ "📌 <b>Order ID:</b> <code>" ++ r.order_number ++ "</code>\n"
    ++ "🧺 <b>Services:</b> " ++ servicesStr ++ "\n"
    ++ "⚖️ <b>Weight:</b> " ++ weightLine ++ "\n"
    ++ "🚚 <b>Delivery:</b> " ++ deliveryTypeStr ++ "\n"
    ++ "🏪 <b>Outlet:</b> " ++ r.outlet_name ++ "\n"
    ++ "⏱ <b>Expected:</b> in about " ++ toString r.expected_hours ++ " hours\n"
    ++ "💵 <b>Total:</b> ₹" ++ floatRepr r.total_price ++ "\n"
    ++ paymentLine
  let msg := msg ++ (if r.customer_instructions ≠ "" then
    "📝 <b>Your instructions:</b> " ++ r.customer_instructions ++ "\n" else "")
  let msg :=
    if r.pickup_type = "home_pickup" then
      let m := msg ++ "🏠 <b>Pickup & delivery:</b>\n"
        ++ (if r.pickup_address ≠ "" then r.pickup_address else address) ++ "\n"
      let m := m ++ (match r.preferred_pickup_at with
        | some p => if p ≠ "" then "📅 <b>Preferred pickup:</b> " ++ p ++ "\n" else ""
        | none => "")
      let m := m ++ (match r.preferred_delivery_at with
        | some p => if p ≠ "" then "📅 <b>Preferred delivery:</b> " ++ p ++ "\n" else ""
        | none => "")
      let m := m ++ "\n<i>We’ll pick up from here and deliver back when ready.</i>"
      if r.is_express then m ++ " Express: early pickup and drop." else m
    else
      let m := msg ++ "\n📍 <b>Drop-off:</b> You can drop your clothes at the outlet."
      let m := m ++ (match r.preferred_pickup_at with
        | some p => if p ≠ "" then "\n📅 <b>Preferred drop-off:</b> " ++ p else ""
        | none => "")
      m ++ (match r.preferred_delivery_at with
        | some p => if p ≠ "" then "\n📅 <b>Preferred pick-up from outlet:</b> " ++ p else ""
        | none => "")
  let msg := msg ++ (match r.maintenance_note with
    | some n => if n ≠ "" then "\n\n⚠️ " ++ n else ""
    | none => "")
  msg ++ "\n\n━━━━━━━━━━━━━━━━━━━━\n📦 Use <b>Track</b> or ask <i>\"Where is my order?\"</i> for updates.\n\n⭐ <b>Rate your experience?</b> (optional) Reply <b>1–5</b> or <b>skip</b>."

/-- The argument record with which the payment step invokes
`create_booking`. -/
def paymentArgs (chatId : String) (st : BState) (paymentMethod : String) : CBArgs :=
  let pickupType := st.pickup_type.getD "self_drop"
  { telegram_chat_id := chatId, full_name := st.name.getD "",
    address := st.address.getD "",
    phone := st.phone.getD "", delivery_type := st.delivery_type.getD "standard",
    service_choice := st.service_choice.getD "wash_only",
    weight_kg := st.weight_kg.getD 1, weight_note := st.weight_note,
    customer_instructions := st.customer_instructions.getD "",
    pickup_type := pickupType,
    pickup_address := if pickupType = "home_pickup" then st.pickup_address.getD "" else "",
    delivery_address := if pickupType = "home_pickup" then st.delivery_address.getD "" else "",
    payment_method := paymentMethod,
    preferred_pickup_at :=
      (let p := stripStr (st.preferred_pickup_at.getD "")
       if p = "" then none else some p),
    preferred_delivery_at :=
      (let p := stripStr (st.preferred_delivery_at.getD "")
       if p = "" then none else some p) }

def stepPayment (env : Env) (g : GState) (chatId _raw message : String) (st : BState) :
    Except String (String × GState) :=
  let pm := stripStr message
  let paymentMethod :=
    if memStr pm ["1", "cash", "cod", "cash on delivery"] then some "cod"
    else if memStr pm ["2", "upi"] then some "upi"
    else if memStr pm ["3", "card", "online", "netbanking"] then some "online"
    else none
  match paymentMethod with
  | none => .ok (progressTag "payment" ++ paymentRePrompt, setBooking g chatId st)
  | some paymentMethod =>
    let st := { st with payment_method := some paymentMethod }
    let g := popBooking g chatId
    let address := st.address.getD ""
    match env.createBooking (paymentArgs chatId st paymentMethod) with
    | .error e =>
      if inStr "telegram_chat_id" e ∧ inStr "does not exist" e then .ok (setupAlterMsg, g)
      else
        .ok ("Sorry, we couldn" ++ aposS
          ++ "t create the booking. Please try again or contact the outlet. ("
          ++ takeStr 60 e ++ ")", g)
    | .ok (.setupError msg) =>
      .ok (dictGetD msg "Please run the Supabase migration (see docs).", g)
    | .ok (.noOutlets msg) =>
      .ok ("⚠️ " ++ pyOrStr msg
        "All outlets are currently on maintenance. Please try again later.", g)
    | .ok (.ok r) =>
      .ok (confirmationMessage r address,
        setBooking g chatId { step := "awaiting_rating", order_id := some r.order_id })

/-- Block 0 of `_handle_message_impl`: the optional post-booking rating. -/
def ratingStep (env : Env) (g : GState) (chatId raw : String) (st : BState) :
    Except String (String × GState) :=
  let orderId := st.order_id
  let g := popBooking g chatId
  if memStr (lowerStr raw) ["skip", "no", "n", "later", "-"] then .ok (ratingSkipMsg, g)
  else
    match pyIntParse (stripStr raw) with
    | some rating =>
      if 1 ≤ rating ∧ rating ≤ 5 ∧ sTruthy orderId then
        match env.feedbackInsert (orderId.getD "") rating with
        | .ok _ => .ok (ratingThanksMsg, g)
        | .error _ => .ok (rateLaterMsg, g)
      else .ok (rateLaterMsg, g)
    | none => .ok (rateLaterMsg, g)

/-- Dispatch of the `if step == ...` chain (blocks 1); `none` when no step
matches, in which case the source falls through to the intent routes. -/
def bookingDispatch (env : Env) (g : GState) (chatId raw message : String)
    (st : BState) : Option (Except String (String × GState)) :=
  if st.step = "name" then some (.ok (stepName env g chatId raw st))
  else if st.step = "address" then some (.ok (stepAddress env g chatId raw st))
  else if st.step = "phone" then some (.ok (stepPhone g chatId raw st))
  else if st.step = "delivery" then some (.ok (stepDelivery g chatId message st))
  else if st.step = "service" then some (.ok (stepService g chatId message st))
  else if st.step = "shoe_quantity" then some (.ok (stepShoeQuantity env g chatId raw st))
  else if st.step = "home_textiles_type" then
    some (.ok (stepHomeTextilesType g chatId message st))
  else if st.step = "iron_quantity" then some (.ok (stepIronQuantity env g chatId raw st))
  else if st.step = "weight" then some (.ok (stepWeight env g chatId raw st))
  else if st.step = "pickup_type" then some (.ok (stepPickupType g chatId message st))
  else if st.step = "home_address" then some (.ok (stepHomeAddress g chatId raw st))
  else if st.step = "pickup_datetime" then some (.ok (stepPickupDatetime g chatId raw st))
  else if st.step = "delivery_datetime" then
    some (.ok (stepDeliveryDatetime g chatId raw st))
  else if st.step = "instructions" then some (.ok (stepInstructions g chatId raw st))
  else if st.step = "payment" then some (stepPayment env g chatId raw message st)
  else none

/-- The order-status reply of route 6 (track by number). -/
def orderStatusMsg (o : TrackedOrder) : String :=
  "📦 <b>Order status</b>\n━━━━━━━━━━━━━━━━━━━━\n📌 <code>" ++ pyShowOpt o.order_number
    ++ "</code>\n📊 Status: <b>" ++ dictGetD o.status "Unknown" ++ "</b>\n🧺 Services: "
    ++ pyOrStr o.items_summary "—" ++ "\n⏱ Expected: " ++ pyOrStr o.delivery_time "—"
    ++ "\n🏪 Outlet: " ++ dictGetD o.outlet_name "—"

/-- The latest-order reply of route 7 (track without a number). -/
def latestOrderMsg (o : TrackedOrder) : String :=
  "📦 <b>Your latest order</b>\n━━━━━━━━━━━━━━━━━━━━\n📌 <code>" ++ pyShowOpt o.order_number
    ++ "</code>\n📊 Status: <b>" ++ dictGetD o.status "Unknown" ++ "</b>\n🧺 Services: "
    ++ pyOrStr o.items_summary "—" ++ "\n⏱ Expected: " ++ pyOrStr o.delivery_time "—"
    ++ "\n🏪 Outlet: " ++ dictGetD o.outlet_name "—"

/-- Routes 2–9 of `_handle_message_impl` (reached when no session step
consumed the message). -/
def routeMessage (env : Env) (g : GState) (chatId text _raw message : String) :
    Except String (String × GState) :=
  if message = "/start" ∨ message = "start" then
    .ok (welcomeMessage, { g with memory := eraseAssoc g.memory chatId })
  else if isGreetingOrCasual message then .ok (replyToGreetingOrCasual message, g)
  else if isShowMyQuestionsIntent message then
    .ok (replyWithRecentQuestions g.memory chatId, g)
  else if isOrderRelated message then
    (env.answerOrderQuery chatId text (getFormattedHistory g.memory chatId)).map
      (fun r => (r, g))
  else if anyIn ["book", "pickup", "schedule", "order lagana", "laundry bhejo"] message then
    .ok (progressTag "name" ++ bookStartMsg, setBooking g chatId { step := "name" })
  else
    match extractOrderNumber message text with
    | some orderNum => do
      let order? ← env.getOrderByNumber orderNum
      match order? with
      | some o => .ok (orderStatusMsg o, g)
      | none =>
        .ok ("🔍 Order <code>" ++ orderNum
          ++ "</code> not found. Double-check the ID or type <b>Book</b> to place a new order.", g)
    | none =>
      if anyIn ["track", "status", "where is my order", "kahan hai"] message then do
        let orders ← env.getOrdersForCustomer chatId 1
        match orders with
        | [] => .ok (trackNoOrdersMsg, g)
        | o0 :: _ => do
          let o? ← env.getOrderByNumber o0.order_number
          match o? with
          | some o => .ok (latestOrderMsg o, g)
          | none => .ok (trackSendIdMsg, g)
      else if anyIn ["price", "pricing", "cost", "fee", "support", "complaint", "policy",
          "faq", "rewash", "delivery time", "express"] message then
        .ok (env.answerWithRag text (getFormattedHistory g.memory chatId), g)
      else
        let ragReply := env.answerWithRag text (getFormattedHistory g.memory chatId)
        if ragReply ≠ "" ∧ !inStr ("don" ++ aposS ++ "t have") (lowerStr ragReply)
            ∧ !inStr "no specific" (lowerStr ragReply) then
          .ok (ragReply, g)
        else .ok (fallbackMenuMsg, g)

/-- Model of `_handle_message_impl`. -/
def handleMessageImpl (env : Env) (g : GState) (chatId text raw : String) :
    Except String (String × GState) :=
  let message := lowerStr (stripStr raw)
  let rating? :=
    match lookupAssoc g.booking chatId with
    | some st => if st.step = "awaiting_rating" then some (ratingStep env g chatId raw st)
      else none
    | none => none
  match rating? with
  | some r => r
  | none =>
    match lookupAssoc g.booking chatId with
    | some st =>
      match bookingDispatch env g chatId raw message st with
      | some r => r
      | none => routeMessage env g chatId text raw message
    | none => routeMessage env g chatId text raw message

/-- Model of `handle_message`: the transport-facing entry point.  It strips the text,
runs the state machine, appends to conversation memory and returns the reply
— with no exception handling of its own. -/
def handleMessage (env : Env) (g : GState) (chatId text : String) :
    Except String (String × GState) := do
  let raw := stripStr text
  let (reply, g1) ← handleMessageImpl env g chatId text raw
  pure (reply, { g1 with memory := memoryAppend g1.memory chatId raw reply })

/-- A concrete environment for witnesses and counterexamples: collaborators
reply with fixed degraded defaults and never raise. -/
def envDefault : Env where
  nearbyOutletsMessage := "We serve Pune (Kothrud, Hinjewadi, Viman Nagar, and more)."
  isPuneAddress := fun a => inStr "pune" (lowerStr (stripStr a))
  nearbyOutletForAddress := fun _ => none
  estimatePriceEnv := fun _ _ _ => none
  createBooking := fun _ => .ok (.noOutlets (some "All outlets are currently on maintenance. Please try again later."))
  feedbackInsert := fun _ _ => .ok ()
  answerOrderQuery := fun _ _ _ => .ok "I could not find an order."
  answerWithRag := fun _ _ => ""
  getOrderByNumber := fun _ => .ok none
  getOrdersForCustomer := fun _ _ => .ok []

/-- Environment `envDefault` with a tracking collaborator whose database call raises. -/
def envTrackFail : Env := { envDefault with getOrderByNumber := fun _ => .error "db down" }

/-- Environment `envDefault` with an order-creation collaborator that raises. -/
def envCBFail : Env := { envDefault with createBooking := fun _ => .error "boom" }

deriving instance DecidableEq for Except

/-! ### Helper lemmas -/

/-- Re-storing the looked-up session object leaves the map unchanged
(Python re-assigns the same dict object to the same key). -/
theorem insertAssoc_self {α : Type} (m : List (String × α)) (k : String) (v : α)
    (h : lookupAssoc m k = some v) : insertAssoc m k v = m := by
  induction m with
  | nil => simp [lookupAssoc] at h
  | cons p rest ih =>
    obtain ⟨k1, v1⟩ := p
    by_cases hk : k1 = k
    · subst hk
      simp [lookupAssoc] at h
      simp [insertAssoc, h]
    · simp [lookupAssoc, hk] at h
      simp [insertAssoc, hk, ih h]

/-- Model of `round2` moves a rational by at most half a cent. -/
theorem abs_round2_sub_le (q : ℚ) : |round2 q - q| ≤ 1 / 200 := by
  have h1 : (⌊q * 100 + 1 / 2⌋ : ℚ) ≤ q * 100 + 1 / 2 := Int.floor_le _
  have h2 : q * 100 + 1 / 2 < (⌊q * 100 + 1 / 2⌋ : ℚ) + 1 := Int.lt_floor_add_one _
  rw [abs_le]
  unfold round2
  constructor <;> nlinarith

/-- Model of `round2` fixes every value that is already a whole number of cents. -/
theorem round2_eq_self (q : ℚ) (n : ℤ) (h : q * 100 = (n : ℚ)) : round2 q = q := by
  unfold round2
  rw [h]
  have : ⌊(n : ℚ) + 1 / 2⌋ = n := by
    rw [add_comm, Int.floor_add_int]
    norm_num
  rw [this]
  have h100 : (100 : ℚ) ≠ 0 := by norm_num
  field_simp at h ⊢
  linarith [h]

/-! ### Claims -/

/-- C3 (counterexample): the textile parser does not clamp an itemized result
to at most 100 kg — `"50 carpets"` parses to 150 kg, contradicting the claim
that every itemized parse is clamped to ≤ 100 kg. -/
theorem c3_counterexample :
    parseHomeTextilesWeight "50 carpets" "carpet" = (some 150, some "50 carpets")
    ∧ ¬((150 : ℚ) ≤ 100) := by decide

/-- C3 (amended): for every itemized input, the generic parser returns
`round2 (min 100 Σ)` where `Σ` is the sum of count × per-unit weight (shirt
0.2 kg, pant 0.25 kg, generic piece/clothes 0.2 kg) and fails when `Σ < 0.5`;
the textile parser (bedsheet 1.0 kg, carpet 3.0 kg, curtain 0.5 kg) instead
returns `max 0.5 (round2 (n × unit))` for a matched count `n ∈ [1, 100]`,
with no upper clamp at 100 kg. -/
theorem c3_amended :
    (∀ (raw : String) (s p gn : ℕ),
      pyFloatParse (replaceChar ',' '.' raw) = none →
      (searchCount "shirt".data (replaceChar ',' ' ' (lowerStr (stripStr raw))).data).getD 0 = s →
      (searchCount "pant".data (replaceChar ',' ' ' (lowerStr (stripStr raw))).data).getD 0 = p →
      piecesCount (replaceChar ',' ' ' (lowerStr (stripStr raw))).data = gn →
      ¬(s = 0 ∧ p = 0 ∧ gn = 0) →
      (parseWeightFromMessage raw).1 =
        (if (s : ℚ) * WEIGHT_PER_SHIRT + (p : ℚ) * WEIGHT_PER_PANT
            + (gn : ℚ) * WEIGHT_PER_PIECE < 1/2 then none
         else some (round2 (min 100 ((s : ℚ) * WEIGHT_PER_SHIRT + (p : ℚ) * WEIGHT_PER_PANT
            + (gn : ℚ) * WEIGHT_PER_PIECE)))))
    ∧ (∀ (raw : String) (n : ℕ),
      kgAnchored (lowerStr (stripStr raw)).data = none →
      intAnchored (lowerStr (stripStr raw)).data = none →
      searchCount "bedsheet".data (lowerStr (stripStr raw)).data = some n →
      1 ≤ n → n ≤ 100 →
      (parseHomeTextilesWeight raw "bedsheet").1 = some (max (1/2) (round2 ((n : ℚ) * 1))))
    ∧ (∀ (raw : String) (n : ℕ),
      kgAnchored (lowerStr (stripStr raw)).data = none →
      intAnchored (lowerStr (stripStr raw)).data = none →
      searchCount "bedsheet".data (lowerStr (stripStr raw)).data = none →
      searchCount "carpet".data (lowerStr (stripStr raw)).data = some n →
      1 ≤ n → n ≤ 100 →
      (parseHomeTextilesWeight raw "carpet").1 = some (max (1/2) (round2 ((n : ℚ) * 3))))
    ∧ (∀ (raw : String) (n : ℕ),
      kgAnchored (lowerStr (stripStr raw)).data = none →
      intAnchored (lowerStr (stripStr raw)).data = none →
      searchCount "bedsheet".data (lowerStr (stripStr raw)).data = none →
      searchCount "carpet".data (lowerStr (stripStr raw)).data = none →
      searchCount "curtain".data (lowerStr (stripStr raw)).data = some n →
      1 ≤ n → n ≤ 100 →
      (parseHomeTextilesWeight raw "curtains").1 = some (max (1/2) (round2 ((n : ℚ) * (1/2))))) := by
  refine ⟨?_, ?_, ?_, ?_⟩
  · intro raw s p gn hf hs hp hg hnz
    have hguard : (decide (s = 0) && decide (p = 0) && decide (gn = 0)) = false := by
      rcases Decidable.em (s = 0) with h1 | h1
      · rcases Decidable.em (p = 0) with h2 | h2
        · rcases Decidable.em (gn = 0) with h3 | h3
          · exact absurd ⟨h1, h2, h3⟩ hnz
          · simp [h3]
        · simp [h2]
      · simp [h1]
    simp only [parseWeightFromMessage, itemizedBranch, hf, hs, hp, hg]
    simp only [hguard, Bool.false_eq_true, if_false]
    simp only [itemizedWeightResult]
    rcases lt_or_le ((s : ℚ) * WEIGHT_PER_SHIRT + (p : ℚ) * WEIGHT_PER_PANT
        + (gn : ℚ) * WEIGHT_PER_PIECE) (1/2) with hlt | hlt
    · simp only [if_pos hlt]
    · simp only [if_neg (not_lt.mpr hlt)]
  · intro raw n hkg hint hbs h1 h100
    simp only [parseHomeTextilesWeight, hkg, hint, textileLoop, hbs]
    simp [h1, h100]
  · intro raw n hkg hint hbs hcp h1 h100
    simp only [parseHomeTextilesWeight, hkg, hint, textileLoop, hbs, hcp]
    simp [h1, h100]
  · intro raw n hkg hint hbs hcp hct h1 h100
    simp only [parseHomeTextilesWeight, hkg, hint, textileLoop, hbs, hcp, hct]
    simp [h1, h100]

/-- C3 (witness): the amended statement evaluated at concrete inputs. -/
theorem c3_amended_witness :
    (parseWeightFromMessage "5 shirts 2 pants").1 = some (3/2)
    ∧ (parseHomeTextilesWeight "2 bedsheets" "bedsheet").1 = some 2
    ∧ (parseHomeTextilesWeight "40 carpets" "carpet").1 = some 120
    ∧ (parseHomeTextilesWeight "3 curtains" "curtains").1 = some (3/2) := by
  refine ⟨?_, ?_, ?_, ?_⟩
  · have h := c3_amended.1 "5 shirts 2 pants" 5 2 0 (by decide) (by decide) (by decide)
      (by decide) (by decide)
    rw [h]; decide
  · have h := c3_amended.2.1 "2 bedsheets" 2 (by decide) (by decide) (by decide)
      (by decide) (by decide)
    rw [h]; decide
  · have h := c3_amended.2.2.1 "40 carpets" 40 (by decide) (by decide) (by decide)
      (by decide) (by decide) (by decide)
    rw [h]; decide
  · have h := c3_amended.2.2.2 "3 curtains" 3 (by decide) (by decide) (by decide)
      (by decide) (by decide) (by decide) (by decide)
    rw [h]; decide

/-- C4 (counterexample): the textile parser treats the bare decimal `"2"`
(inside `[0.5, 100]`) as an item count, returning 6 kg and a derivation note
for `"carpet"` instead of 2 kg with no note. -/
theorem c4_counterexample :
    parseHomeTextilesWeight "2" "carpet" = (some 6, some "2 carpets")
    ∧ parseHomeTextilesWeight "2" "carpet" ≠ (some 2, none) := by decide

/-- C4 (amended): the generic parser returns a bare decimal in `[0.5, 100]`
rounded to 2 decimals with no note; the textile parser instead interprets a
bare integer in `[1, 100]` as an item count (bedsheet 1 kg, carpet 3 kg,
curtain 0.5 kg) with a derivation note, and fails on a bare non-integer
decimal with no `k`/`kg` suffix and no itemized match. -/
theorem c4_amended :
    (∀ (raw : String) (w : ℚ),
      pyFloatParse (replaceChar ',' '.' raw) = some w → 1/2 ≤ w → w ≤ 100 →
      parseWeightFromMessage raw = (some (round2 w), none))
    ∧ (∀ (raw : String) (n : ℕ),
      kgAnchored (lowerStr (stripStr raw)).data = none →
      intAnchored (lowerStr (stripStr raw)).data = some n → 1 ≤ n → n ≤ 100 →
      parseHomeTextilesWeight raw "bedsheet"
          = (some (round2 ((n : ℚ) * 1)), some (countNoun n "bedsheet"))
        ∧ parseHomeTextilesWeight raw "carpet"
          = (some (round2 ((n : ℚ) * 3)), some (countNoun n "carpet"))
        ∧ parseHomeTextilesWeight raw "curtains"
          = (some (round2 ((n : ℚ) * (1/2))), some (countNoun n "curtain")))
    ∧ (∀ (raw t : String),
      kgAnchored (lowerStr (stripStr raw)).data = none →
      intAnchored (lowerStr (stripStr raw)).data = none →
      searchCount "bedsheet".data (lowerStr (stripStr raw)).data = none →
      searchCount "carpet".data (lowerStr (stripStr raw)).data = none →
      searchCount "curtain".data (lowerStr (stripStr raw)).data = none →
      parseHomeTextilesWeight raw t = (none, none)) := by
  refine ⟨?_, ?_, ?_⟩
  · intro raw w hf h1 h2
    simp only [parseWeightFromMessage, hf, if_pos (And.intro h1 h2)]
  · intro raw n hkg hint h1 h100
    have hn : (n < 1 || 100 < n) = false := by simp; omega
    refine ⟨?_, ?_, ?_⟩ <;>
      simp only [parseHomeTextilesWeight, hkg, hint, textileIntResult, hn] <;>
      simp
  · intro raw t hkg hint hbs hcp hct
    simp only [parseHomeTextilesWeight, hkg, hint, textileLoop, hbs, hcp, hct]

/-- C4 (witness): the amended statement evaluated at concrete inputs. -/
theorem c4_amended_witness :
    parseWeightFromMessage "2.5" = (some (5/2), none)
    ∧ parseHomeTextilesWeight "2" "bedsheet" = (some 2, some "2 bedsheets")
    ∧ parseHomeTextilesWeight "0.7" "carpet" = (none, none) := by
  refine ⟨?_, ?_, ?_⟩
  · have h := c4_amended.1 "2.5" (5/2) (by decide) (by decide) (by decide)
    rw [h]; decide
  · have h := (c4_amended.2.1 "2" 2 (by decide) (by decide) (by decide) (by decide)).1
    rw [h]; decide
  · exact c4_amended.2.2 "0.7" "carpet" (by decide) (by decide) (by decide) (by decide)
      (by decide)

/-- C5 (counterexample): with a wash rate of 0.984 and weight 1 kg the
express total is 1.28 while 1.30 × the standard total is 1.274 (1.27 after
rounding) — the express tier is not exactly 1.30 × the standard tier. -/
theorem c5_counterexample :
    estimatePrice [⟨1, "wash", 123/125⟩] "wash_only" 1 "express" = some (32/25)
    ∧ estimatePrice [⟨1, "wash", 123/125⟩] "wash_only" 1 "standard" = some (49/50)
    ∧ (32/25 : ℚ) ≠ (13/10) * (49/50)
    ∧ (32/25 : ℚ) ≠ round2 ((13/10) * (49/50)) := by decide

/-- C5 (amended): with `T` the clamped weight times the summed rates, the
express total is `round2 (T + round2 (T × 0.30))` and the standard total is
`round2 T`; the express total differs from exactly `1.30 ×` the standard
total by at most `0.0165`, and equals it exactly whenever `T` is a whole
number of tenths. -/
theorem c5_amended :
    ∀ (catalog : List ServiceRow) (choice : String) (w : ℚ),
      estimatePrice catalog choice w "express"
          = some (round2 (clampWeight w * ratesSum (pricingRows catalog choice)
            + round2 (clampWeight w * ratesSum (pricingRows catalog choice) * (3/10))))
      ∧ estimatePrice catalog choice w "standard"
          = some (round2 (clampWeight w * ratesSum (pricingRows catalog choice)))
      ∧ |round2 (clampWeight w * ratesSum (pricingRows catalog choice)
            + round2 (clampWeight w * ratesSum (pricingRows catalog choice) * (3/10)))
          - (13/10) * round2 (clampWeight w * ratesSum (pricingRows catalog choice))|
          ≤ 33/2000
      ∧ (∀ k : ℤ, clampWeight w * ratesSum (pricingRows catalog choice) = (k : ℚ)/10 →
          round2 (clampWeight w * ratesSum (pricingRows catalog choice)
              + round2 (clampWeight w * ratesSum (pricingRows catalog choice) * (3/10)))
            = (13/10) * round2 (clampWeight w * ratesSum (pricingRows catalog choice))) := by
  intro catalog choice w
  set T := clampWeight w * ratesSum (pricingRows catalog choice) with hT
  refine ⟨?_, ?_, ?_, ?_⟩
  · simp [estimatePrice, isExpressType, memStr, lowerStr, stripStr, stripL, dropLeadingWs,
      isPyWs, ← hT]
  · simp [estimatePrice, isExpressType, memStr, lowerStr, stripStr, stripL, dropLeadingWs,
      isPyWs, ← hT]
  · have ha := abs_round2_sub_le (T * (3/10))
    have hb := abs_round2_sub_le (T + round2 (T * (3/10)))
    have hc := abs_round2_sub_le T
    rw [abs_le] at ha hb hc ⊢
    constructor <;> nlinarith [ha.1, ha.2, hb.1, hb.2, hc.1, hc.2]
  · intro k hk
    have h1 : round2 (T * (3/10)) = T * (3/10) := by
      refine round2_eq_self _ (3 * k) ?_
      rw [hk]; push_cast; ring
    have h2 : round2 T = T := by
      refine round2_eq_self _ (10 * k) ?_
      rw [hk]; push_cast; ring
    have h3 : round2 (T + T * (3/10)) = T + T * (3/10) := by
      refine round2_eq_self _ (13 * k) ?_
      rw [hk]; push_cast; ring
    rw [h1, h3, h2]; ring

/-- C5 (witness): the amended statement at rate 0.2/kg and weight 1 kg
(`T = 0.2`), where the express total 0.26 is exactly 1.30 × 0.20. -/
theorem c5_amended_witness :
    estimatePrice [⟨1, "wash", 1/5⟩] "wash_only" 1 "express" = some (13/50)
    ∧ estimatePrice [⟨1, "wash", 1/5⟩] "wash_only" 1 "standard" = some (1/5)
    ∧ (13/50 : ℚ) = (13/10) * (1/5) := by
  have h := c5_amended [⟨1, "wash", 1/5⟩] "wash_only" 1
  have hex := h.2.2.2 2 (by decide)
  refine ⟨?_, ?_, by norm_num⟩
  · rw [h.1, hex]
    decide
  · rw [h.2.1]
    decide

/-- C6: for identical service choice, weight, delivery type and catalog, the
mid-flow `estimate_price` total equals the `total_price` computed and
persisted by `create_booking` — both clamp the weight, multiply by the summed
per-kg rates, add `round(total × 0.3, 2)` when express, and round to 2
decimals. -/
theorem c6_estimate_matches_creation :
    ∀ (catalog : List ServiceRow) (choice : String) (w : ℚ) (d : String),
      estimatePrice catalog choice w d = some ((createBookingPricing catalog choice w d).1) := by
  intro catalog choice w d
  unfold estimatePrice createBookingPricing
  cases h : isExpressType d <;> simp [h]

/-- C9: the pricing engine classifies a delivery type as express exactly when
its trimmed lowercase form is `"express"`, `"1"` or `"2"`; in particular the
raw menu digit `"1"` (presented to the user as Standard) is priced as
express, and the standard price appears only because the delivery step of the
state machine stores `"standard"` for input `"1"` before the engine is ever
invoked. -/
theorem c9_express_classification :
    (∀ (catalog : List ServiceRow) (choice : String) (w : ℚ),
      estimatePrice catalog choice w "1" = estimatePrice catalog choice w "express"
      ∧ createBookingPricing catalog choice w "1"
        = createBookingPricing catalog choice w "express")
    ∧ (∀ (catalog : List ServiceRow) (choice : String) (w : ℚ) (d : String),
        memStr (lowerStr (stripStr d)) ["express", "1", "2"] = false →
        estimatePrice catalog choice w d
          = some (round2 (clampWeight w * ratesSum (pricingRows catalog choice))))
    ∧ (∀ (catalog : List ServiceRow) (choice : String) (w : ℚ) (d : String),
        memStr (lowerStr (stripStr d)) ["express", "1", "2"] = true →
        estimatePrice catalog choice w d
          = some (round2 (clampWeight w * ratesSum (pricingRows catalog choice)
            + round2 (clampWeight w * ratesSum (pricingRows catalog choice) * (3/10)))))
    ∧ estimatePrice [⟨1, "wash", 10⟩] "wash_only" 2 "1" = some 26
    ∧ estimatePrice [⟨1, "wash", 10⟩] "wash_only" 2 "standard" = some 20
    ∧ (∀ (env : Env) (g : GState) (chatId text raw : String) (st : BState),
        lookupAssoc g.booking chatId = some st → st.step = "delivery" →
        lowerStr (stripStr raw) = "1" →
        handleMessageImpl env g chatId text raw
          = .ok (servicePrompt,
              setBooking g chatId
                { st with delivery_type := some "standard", step := "service" })) := by
  refine ⟨?_, ?_, ?_, by decide, by decide, ?_⟩
  · intro catalog choice w
    constructor <;> simp [estimatePrice, createBookingPricing, isExpressType, memStr,
      lowerStr, stripStr, stripL, dropLeadingWs, isPyWs]
  · intro catalog choice w d hd
    have hx : isExpressType d = false := hd
    simp [estimatePrice, hx]
  · intro catalog choice w d hd
    have hx : isExpressType d = true := hd
    simp [estimatePrice, hx]
  · intro env g chatId text raw st h hstep hm
    simp only [handleMessageImpl, h, hstep, hm]
    simp [bookingDispatch, stepDelivery, memStr, progressTag, hstep]

/-- C9 (witness): the classification facts at a concrete catalog, and the
delivery step normalizing the digit `"1"` to `"standard"`. -/
theorem c9_express_classification_witness :
    estimatePrice [⟨1, "wash", 10⟩] "wash_only" 2 "1"
        = estimatePrice [⟨1, "wash", 10⟩] "wash_only" 2 "express"
    ∧ estimatePrice [⟨1, "wash", 10⟩] "wash_only" 2 "standard"
        = some (round2 (clampWeight 2 * ratesSum (pricingRows [⟨1, "wash", 10⟩] "wash_only")))
    ∧ estimatePrice [⟨1, "wash", 10⟩] "wash_only" 2 "2"
        = some (round2 (clampWeight 2 * ratesSum (pricingRows [⟨1, "wash", 10⟩] "wash_only")
            + round2 (clampWeight 2 * ratesSum (pricingRows [⟨1, "wash", 10⟩] "wash_only")
              * (3/10))))
    ∧ handleMessageImpl envDefault ⟨[("c", { step := "delivery" })], []⟩ "c" "1" "1"
        = .ok (servicePrompt, setBooking ⟨[("c", { step := "delivery" })], []⟩ "c"
            { ({ step := "delivery" } : BState) with delivery_type := some "standard", step := "service" }) :=
  ⟨(c9_express_classification.1 [⟨1, "wash", 10⟩] "wash_only" 2).1,
   c9_express_classification.2.1 [⟨1, "wash", 10⟩] "wash_only" 2 "standard" (by decide),
   c9_express_classification.2.2.1 [⟨1, "wash", 10⟩] "wash_only" 2 "2" (by decide),
   c9_express_classification.2.2.2.2.2 envDefault ⟨[("c", { step := "delivery" })], []⟩
     "c" "1" "1" { step := "delivery" } (by decide) (by decide) (by decide)⟩

/-- C10: in the iron-quantity state the integer-count parse runs first and
accepts the first integer in `[1, 100]` anywhere in the message, so `"2 kg"`
is recorded as 2 ironing pieces weighing `max 0.5 (2 × 0.2) = 0.5` kg; the
weight-in-kg parse is reached only when the quantity parse fails (first
integer out of `[1, 100]` or no integer, e.g. `"0.7"`). -/
theorem c10_iron_quantity_priority :
    (handleMessageImpl envDefault ⟨[("c", { step := "iron_quantity" })], []⟩ "c" "2 kg" "2 kg"
        = .ok (ironPickupPrompt,
            ⟨[("c", { step := "pickup_type", weight_kg := some (1/2), weight_note := some "2 pieces to iron" })], []⟩)
      ∧ round2 (max (1/2) ((2 : ℚ) * WEIGHT_PER_IRON_PIECE)) = 1/2)
    ∧ (∀ (env : Env) (g : GState) (chatId text raw : String) (st : BState) (q : ℕ),
        lookupAssoc g.booking chatId = some st → st.step = "iron_quantity" →
        parseQuantity raw 1 100 = some q →
        handleMessageImpl env g chatId text raw
          = .ok (ironTail env g chatId st
              (round2 (max (1/2 : ℚ) ((q : ℚ) * WEIGHT_PER_IRON_PIECE)))
              (toString q ++ " piece" ++ (if q ≠ 1 then "s" else "") ++ " to iron")))
    ∧ (∀ (env : Env) (g : GState) (chatId text raw : String) (st : BState),
        lookupAssoc g.booking chatId = some st → st.step = "iron_quantity" →
        parseQuantity raw 1 100 = none →
        (parseWeightFromMessage raw).1 = none →
        handleMessageImpl env g chatId text raw = .ok (ironRePrompt, g))
    ∧ (∀ (env : Env) (g : GState) (chatId text raw : String) (st : BState) (w : ℚ)
        (noteOpt : Option String),
        lookupAssoc g.booking chatId = some st → st.step = "iron_quantity" →
        parseQuantity raw 1 100 = none →
        parseWeightFromMessage raw = (some w, noteOpt) →
        ¬(w < 1/2 ∨ 100 < w) →
        handleMessageImpl env g chatId text raw
          = .ok (ironTail env g chatId st w (pyOrStr noteOpt (floatRepr w ++ " kg"))))
    ∧ (∀ s : String, stripStr s ≠ "" →
        parseQuantity s 1 100
          = (firstDigitRun (stripStr s).data).bind
              (fun n => if 1 ≤ n ∧ n ≤ 100 then some n else none)) := by
  refine ⟨by decide, ?_, ?_, ?_, ?_⟩
  · intro env g chatId text raw st q h hstep hq
    simp only [handleMessageImpl, h, hstep]
    simp [bookingDispatch, stepIronQuantity, hstep, hq]
  · intro env g chatId text raw st h hstep hq hw
    have hrepl : setBooking g chatId st = g := by
      unfold setBooking
      rw [insertAssoc_self g.booking chatId st h]
    simp only [handleMessageImpl, h, hstep]
    rcases hpw : parseWeightFromMessage raw with ⟨w?, note?⟩
    rw [hpw] at hw
    simp only at hw
    subst hw
    simp [bookingDispatch, stepIronQuantity, hstep, hq, hpw, hrepl, progressTag]
  · intro env g chatId text raw st w noteOpt h hstep hq hpw hrange
    have hrange2 : ¬(w < 2⁻¹ ∨ 100 < w) := by rwa [one_div] at hrange
    simp only [handleMessageImpl, h, hstep]
    simp [bookingDispatch, stepIronQuantity, hstep, hq, hpw, hrange, hrange2]
  · intro s hs
    unfold parseQuantity
    rw [if_neg hs]
    cases hf : firstDigitRun (stripStr s).data <;> simp [hf]

/-- C10 (witness): the three iron-quantity behaviours at concrete inputs. -/
theorem c10_iron_quantity_priority_witness :
    handleMessageImpl envDefault ⟨[("c", { step := "iron_quantity" })], []⟩ "c" "10" "10"
        = .ok (ironTail envDefault ⟨[("c", { step := "iron_quantity" })], []⟩ "c"
            { step := "iron_quantity" }
            (round2 (max (1/2 : ℚ) ((10 : ℚ) * WEIGHT_PER_IRON_PIECE)))
            (toString 10 ++ " piece" ++ (if (10 : ℕ) ≠ 1 then "s" else "") ++ " to iron"))
    ∧ handleMessageImpl envDefault ⟨[("c", { step := "iron_quantity" })], []⟩ "c" "hello" "hello"
        = .ok (ironRePrompt, ⟨[("c", { step := "iron_quantity" })], []⟩)
    ∧ handleMessageImpl envDefault ⟨[("c", { step := "iron_quantity" })], []⟩ "c" "0.7" "0.7"
        = .ok (ironTail envDefault ⟨[("c", { step := "iron_quantity" })], []⟩ "c"
            { step := "iron_quantity" } (7/10) (pyOrStr none (floatRepr (7/10) ++ " kg")))
    ∧ parseQuantity "0.7" 1 100
        = (firstDigitRun (stripStr "0.7").data).bind
            (fun n => if 1 ≤ n ∧ n ≤ 100 then some n else none) :=
  ⟨c10_iron_quantity_priority.2.1 envDefault ⟨[("c", { step := "iron_quantity" })], []⟩
     "c" "10" "10" { step := "iron_quantity" } 10 (by decide) (by decide) (by decide),
   c10_iron_quantity_priority.2.2.1 envDefault ⟨[("c", { step := "iron_quantity" })], []⟩
     "c" "hello" "hello" { step := "iron_quantity" } (by decide) (by decide) (by decide)
     (by decide),
   c10_iron_quantity_priority.2.2.2.1 envDefault ⟨[("c", { step := "iron_quantity" })], []⟩
     "c" "0.7" "0.7" { step := "iron_quantity" } (7/10) none (by decide) (by decide)
     (by decide) (by decide) (by decide),
   c10_iron_quantity_priority.2.2.2.2 "0.7" (by decide)⟩

set_option maxRecDepth 8192 in
/-- C1 (counterexample): in the delivery-tier menu state the unrecognized
input `"banana"` does not re-prompt — the session advances to the service
step with the delivery tier coerced to `"standard"`. -/
theorem c1_counterexample :
    memStr "banana" ["1", "2", "express"] = false
    ∧ handleMessageImpl envDefault ⟨[("c", { step := "delivery" })], []⟩ "c" "banana" "banana"
      = .ok (servicePrompt,
          ⟨[("c", { step := "service", delivery_type := some "standard" })], []⟩)
    ∧ ("service" : String) ≠ "delivery" := by decide

/-- C1 (amended): of the four menu-choice states only the payment state
re-prompts on an unrecognized choice and leaves the session unchanged; the
delivery-tier, service and pickup-mode states coerce an unrecognized choice
to a default (`standard`, `wash_only`, `self_drop`) and advance. -/
theorem c1_amended :
    (∀ (env : Env) (g : GState) (chatId text raw : String) (st : BState),
      lookupAssoc g.booking chatId = some st → st.step = "payment" →
      memStr (stripStr (lowerStr (stripStr raw))) ["1", "cash", "cod", "cash on delivery"]
        = false →
      memStr (stripStr (lowerStr (stripStr raw))) ["2", "upi"] = false →
      memStr (stripStr (lowerStr (stripStr raw))) ["3", "card", "online", "netbanking"]
        = false →
      handleMessageImpl env g chatId text raw = .ok (paymentRePrompt, g))
    ∧ (∀ (env : Env) (g : GState) (chatId text raw : String) (st : BState),
      lookupAssoc g.booking chatId = some st → st.step = "delivery" →
      memStr (lowerStr (stripStr raw)) ["1", "2", "express"] = false →
      handleMessageImpl env g chatId text raw
        = .ok (servicePrompt, setBooking g chatId
            { st with delivery_type := some "standard", step := "service" }))
    ∧ (∀ (env : Env) (g : GState) (chatId text raw : String) (st : BState),
      lookupAssoc g.booking chatId = some st → st.step = "service" →
      memStr (lowerStr (stripStr raw)) ["1", "2", "3", "4", "5", "6", "7", "8"] = false →
      handleMessageImpl env g chatId text raw
        = .ok (weightPrompt, setBooking g chatId
            { st with service_choice := some "wash_only", step := "weight" }))
    ∧ (∀ (env : Env) (g : GState) (chatId text raw : String) (st : BState),
      lookupAssoc g.booking chatId = some st → st.step = "pickup_type" →
      memStr (lowerStr (stripStr raw)) ["1", "2", "home", "pickup"] = false →
      handleMessageImpl env g chatId text raw
        = .ok (selfDropDatetimePrompt, setBooking g chatId
            { st with pickup_type := some "self_drop", step := "pickup_datetime" })) := by
  refine ⟨?_, ?_, ?_, ?_⟩
  · intro env g chatId text raw st h hstep h1 h2 h3
    have hrepl : setBooking g chatId st = g := by
      unfold setBooking
      rw [insertAssoc_self g.booking chatId st h]
    simp only [handleMessageImpl, h, hstep]
    simp [bookingDispatch, stepPayment, hstep, h1, h2, h3, hrepl, progressTag]
  · intro env g chatId text raw st h hstep hm
    have hm2 : memStr (lowerStr (stripStr raw)) ["2", "express"] = false := by
      revert hm; simp [memStr]
    simp only [handleMessageImpl, h, hstep]
    simp [bookingDispatch, stepDelivery, hstep, hm2, progressTag]
  · intro env g chatId text raw st h hstep hm
    obtain ⟨n1, n2, n3, n4, n5, n6, n7, n8⟩ :
        ¬"1" = lowerStr (stripStr raw) ∧ ¬"2" = lowerStr (stripStr raw)
        ∧ ¬"3" = lowerStr (stripStr raw) ∧ ¬"4" = lowerStr (stripStr raw)
        ∧ ¬"5" = lowerStr (stripStr raw) ∧ ¬"6" = lowerStr (stripStr raw)
        ∧ ¬"7" = lowerStr (stripStr raw) ∧ ¬"8" = lowerStr (stripStr raw) := by
      revert hm; simp [memStr]
    have hchoice : serviceChoiceMap (lowerStr (stripStr raw)) = "wash_only" := by
      simp [serviceChoiceMap, List.find?, n1, n2, n3, n4, n5, n6, n7, n8]
    simp only [handleMessageImpl, h, hstep]
    simp [bookingDispatch, stepService, hstep, hchoice, memStr, progressTag]
  · intro env g chatId text raw st h hstep hm
    have hm2 : memStr (lowerStr (stripStr raw)) ["2", "home", "pickup"] = false := by
      revert hm; simp [memStr]
    simp only [handleMessageImpl, h, hstep]
    simp [bookingDispatch, stepPickupType, hstep, hm2, progressTag]

/-- C1 (witness): the four amended behaviours at the concrete unrecognized
input `"banana"`. -/
theorem c1_amended_witness :
    handleMessageImpl envDefault ⟨[("c", { step := "payment" })], []⟩ "c" "banana" "banana"
        = .ok (paymentRePrompt, ⟨[("c", { step := "payment" })], []⟩)
    ∧ handleMessageImpl envDefault ⟨[("c", { step := "delivery" })], []⟩ "c" "banana" "banana"
        = .ok (servicePrompt, setBooking ⟨[("c", { step := "delivery" })], []⟩ "c"
            { ({ step := "delivery" } : BState) with delivery_type := some "standard", step := "service" })
    ∧ handleMessageImpl envDefault ⟨[("c", { step := "service" })], []⟩ "c" "banana" "banana"
        = .ok (weightPrompt, setBooking ⟨[("c", { step := "service" })], []⟩ "c"
            { ({ step := "service" } : BState) with service_choice := some "wash_only", step := "weight" })
    ∧ handleMessageImpl envDefault ⟨[("c", { step := "pickup_type" })], []⟩ "c" "banana" "banana"
        = .ok (selfDropDatetimePrompt, setBooking ⟨[("c", { step := "pickup_type" })], []⟩ "c"
            { ({ step := "pickup_type" } : BState) with pickup_type := some "self_drop", step := "pickup_datetime" }) :=
  ⟨c1_amended.1 envDefault ⟨[("c", { step := "payment" })], []⟩ "c" "banana" "banana"
     { step := "payment" } (by decide) (by decide) (by decide) (by decide) (by decide),
   c1_amended.2.1 envDefault ⟨[("c", { step := "delivery" })], []⟩ "c" "banana" "banana"
     { step := "delivery" } (by decide) (by decide) (by decide),
   c1_amended.2.2.1 envDefault ⟨[("c", { step := "service" })], []⟩ "c" "banana" "banana"
     { step := "service" } (by decide) (by decide) (by decide),
   c1_amended.2.2.2 envDefault ⟨[("c", { step := "pickup_type" })], []⟩ "c" "banana" "banana"
     { step := "pickup_type" } (by decide) (by decide) (by decide)⟩

/-- C8 (counterexample): `handle_message` has no exception handling of its
own, and the track-by-number route calls the tracking collaborator outside
any `try`; a database exception raised there escapes to the transport
layer. -/
theorem c8_counterexample :
    handleMessage envTrackFail ⟨[], []⟩ "c" "ord-12345678" = .error "db down"
    ∧ envTrackFail.getOrderByNumber "ORD-12345678" = .error "db down" := by decide

/-- C8 (amended): exceptions are caught only around specific calls — the
terminal `create_booking` call of the payment step is converted to an
apology reply — while a collaborator exception in the track-by-number route
propagates out of `handle_message` unchanged. -/
theorem c8_amended :
    (∀ (env : Env) (g : GState) (chatId text raw : String) (st : BState) (e : String),
      lookupAssoc g.booking chatId = some st → st.step = "payment" →
      stripStr (lowerStr (stripStr raw)) = "1" →
      env.createBooking (paymentArgs chatId { st with payment_method := some "cod" } "cod")
        = .error e →
      inStr "telegram_chat_id" e = false →
      handleMessageImpl env g chatId text raw
        = .ok ("Sorry, we couldn" ++ aposS
            ++ "t create the booking. Please try again or contact the outlet. ("
            ++ takeStr 60 e ++ ")", popBooking g chatId))
    ∧ (∀ (env : Env) (e : String),
      env.getOrderByNumber "ORD-12345678" = .error e →
      handleMessage env ⟨[], []⟩ "c" "ord-12345678" = .error e) := by
  constructor
  · intro env g chatId text raw st e h hstep hpm hcb hins
    rw [hstep] at hcb
    simp only [handleMessageImpl, h, hstep]
    simp [bookingDispatch, stepPayment, hstep, hpm, hcb, hins, memStr]
  · intro env e hdb
    have hraw : stripStr "ord-12345678" = "ord-12345678" := by decide
    have hmsg : lowerStr (stripStr "ord-12345678") = "ord-12345678" := by decide
    have hlow : lowerStr "ord-12345678" = "ord-12345678" := by decide
    have hgr : isGreetingOrCasual "ord-12345678" = false := by decide
    have hqs : isShowMyQuestionsIntent "ord-12345678" = false := by decide
    have hor : isOrderRelated "ord-12345678" = false := by decide
    have hbk : anyIn ["book", "pickup", "schedule", "order lagana", "laundry bhejo"]
        "ord-12345678" = false := by decide
    have hex : extractOrderNumber "ord-12345678" "ord-12345678" = some "ORD-12345678" := by
      decide
    simp only [handleMessage, hraw, handleMessageImpl, hmsg, lookupAssoc]
    simp [routeMessage, hlow, hgr, hqs, hor, hbk, hex, hdb, Except.instMonad, Except.bind,
      Except.map]

/-- C8 (witness): the amended statement at concrete failing collaborators. -/
theorem c8_amended_witness :
    handleMessageImpl envCBFail ⟨[("c", { step := "payment" })], []⟩ "c" "1" "1"
        = .ok ("Sorry, we couldn" ++ aposS
            ++ "t create the booking. Please try again or contact the outlet. ("
            ++ takeStr 60 "boom" ++ ")",
            popBooking ⟨[("c", { step := "payment" })], []⟩ "c")
    ∧ handleMessage envTrackFail ⟨[], []⟩ "c" "ord-12345678" = .error "db down" :=
  ⟨c8_amended.1 envCBFail ⟨[("c", { step := "payment" })], []⟩ "c" "1" "1"
     { step := "payment" } "boom" (by decide) (by decide) (by decide) (by decide) (by decide),
   c8_amended.2 envTrackFail "db down" (by decide)⟩

/-- Length of a concatenation. -/
theorem lenStr_append (s t : String) : lenStr (s ++ t) = lenStr s + lenStr t := by
  simp [lenStr, String.data_append]

/-- A string of positive length is not empty. -/
theorem ne_empty_of_lenStr_pos {s : String} (h : 0 < lenStr s) : s ≠ "" := by
  intro hc
  rw [hc] at h
  simp [lenStr] at h

/-- No area row matches the empty address. -/
theorem firstMatchingArea_empty_addr (areas : List AreaRow) :
    firstMatchingArea areas "" = none := by
  induction areas with
  | nil => rfl
  | cons row rest ih =>
    unfold firstMatchingArea
    cases hoid : row.outlet_id with
    | none => simpa using ih
    | some oid =>
      have hcond : ¬(lowerStr (stripStr row.area_name) ≠ ""
          ∧ inStr (lowerStr (stripStr row.area_name)) "" = true) := by
        rintro ⟨hne, hin⟩
        simp only [inStr, containsSub] at hin
        exact hne (String.ext (by simpa using hin))
      simpa [hcond] using ih

/-- With no active outlet, `_assign_outlet_by_address` always raises the
`No active outlets found` error. -/
theorem assignOutletByAddress_no_active (areas : List AreaRow) (outlets : List Outlet)
    (address : String) (hf : outlets.filter (fun o => o.is_active) = []) :
    assignOutletByAddress areas outlets address = .error "No active outlets found" := by
  have hao : assignOutlet outlets = .error "No active outlets found" := by
    unfold assignOutlet
    rw [hf]
  unfold assignOutletByAddress
  by_cases he : stripStr address = ""
  · simp [he, hao, Except.map]
  · rw [if_neg he]
    cases hm : firstMatchingArea areas (lowerStr (stripStr address)) with
    | none => simp [hm, hao, Except.map]
    | some pr =>
      obtain ⟨a, oid⟩ := pr
      cases hfr : findOutletRow outlets oid with
      | none => simp [hm, hfr, maintenanceFallback, hao, Except.bind]
      | some o =>
        have hmem : o ∈ outlets := List.mem_of_find?_eq_some hfr
        have hwrong : o.is_active = false := by
          have h := List.filter_eq_nil_iff.mp hf o hmem
          simpa using h
        simp [hm, hfr, hwrong, maintenanceFallback, hao, Except.bind]

/-- C2 (counterexample): the area catalog `a ↦ outlet 1 (inactive)`,
`b ↦ outlet 2 (active)` and the address `"a b"`: the address matches area
`b`, which is mapped to the active outlet 2, yet assignment returns a
non-empty maintenance note (the earlier inactive match shadows it), contrary
to the claim that a match on an active area yields that outlet with no
note. -/
theorem c2_counterexample :
    inStr "b" "a b" = true
    ∧ firstMatchingArea [⟨"b", some 2⟩] "a b" = some ("b", 2)
    ∧ (findOutletRow [⟨1, "X", false⟩, ⟨2, "Y", true⟩] 2).map Outlet.is_active = some true
    ∧ assignOutletByAddress [⟨"a", some 1⟩, ⟨"b", some 2⟩]
        [⟨1, "X", false⟩, ⟨2, "Y", true⟩] "a b"
      = .ok (2, some ("That outlet (X) is currently on maintenance. We" ++ aposS
          ++ "ve assigned your order to Y instead.")) := by decide

/-- C2 (amended): the FIRST area row (in catalog order) whose name is a
substring of the address decides the assignment: if its outlet is active it
is returned with no note; if its outlet row exists but is inactive, the
first active outlet is assigned together with a fixed non-empty maintenance
note; and with zero active outlets the `create_booking` assignment step
yields the distinguished `no_outlets` outcome with its service-unavailable
message. -/
theorem c2_amended :
    (∀ (areas : List AreaRow) (outlets : List Outlet) (address a : String) (oid : Nat)
        (o : Outlet),
      firstMatchingArea areas (lowerStr (stripStr address)) = some (a, oid) →
      findOutletRow outlets oid = some o → o.is_active = true →
      assignOutletByAddress areas outlets address = .ok (oid, none))
    ∧ (∀ (areas : List AreaRow) (outlets : List Outlet) (address a : String) (oid : Nat)
        (o oa : Outlet) (tl : List Outlet),
      firstMatchingArea areas (lowerStr (stripStr address)) = some (a, oid) →
      findOutletRow outlets oid = some o → o.is_active = false →
      outlets.filter (fun x => x.is_active) = oa :: tl →
      assignOutletByAddress areas outlets address
          = .ok (oa.id, some ("That outlet ("
              ++ (if o.outlet_name = "" then "Your nearest outlet" else o.outlet_name)
              ++ ") is currently on maintenance. We" ++ aposS ++ "ve assigned your order to "
              ++ (match findOutletRow outlets oa.id with
                  | some o2 => o2.outlet_name
                  | none => "another outlet") ++ " instead."))
        ∧ ("That outlet ("
              ++ (if o.outlet_name = "" then "Your nearest outlet" else o.outlet_name)
              ++ ") is currently on maintenance. We" ++ aposS ++ "ve assigned your order to "
              ++ (match findOutletRow outlets oa.id with
                  | some o2 => o2.outlet_name
                  | none => "another outlet") ++ " instead.") ≠ "")
    ∧ (∀ (areas : List AreaRow) (outlets : List Outlet) (address : String),
      outlets.filter (fun o => o.is_active) = [] →
      createBookingAssignStep areas outlets address
        = .ok (.noOutletsMsg
            "All outlets are currently on maintenance. Please try again later.")) := by
  refine ⟨?_, ?_, ?_⟩
  · intro areas outlets address a oid o hm hfr hact
    have he : ¬stripStr address = "" := by
      intro hc
      rw [hc] at hm
      have : lowerStr "" = "" := by decide
      rw [this, firstMatchingArea_empty_addr] at hm
      exact Option.noConfusion hm
    unfold assignOutletByAddress
    rw [if_neg he]
    simp [hm, hfr, hact]
  · intro areas outlets address a oid o oa tl hm hfr hact hfil
    have he : ¬stripStr address = "" := by
      intro hc
      rw [hc] at hm
      have : lowerStr "" = "" := by decide
      rw [this, firstMatchingArea_empty_addr] at hm
      exact Option.noConfusion hm
    have hao : assignOutlet outlets = .ok oa.id := by
      unfold assignOutlet
      rw [hfil]
    constructor
    · unfold assignOutletByAddress
      rw [if_neg he]
      simp [hm, hfr, hact, maintenanceFallback, hao, Except.bind]
    · apply ne_empty_of_lenStr_pos
      have h13 : lenStr "That outlet (" = 13 := by decide
      rw [lenStr_append, lenStr_append, lenStr_append, lenStr_append, lenStr_append,
        lenStr_append, h13]
      omega
  · intro areas outlets address hf
    unfold createBookingAssignStep
    rw [assignOutletByAddress_no_active areas outlets address hf]
    simp [show inStr "No active outlets" "No active outlets found" = true from by decide]

/-- C2 (witness): the amended statement at concrete catalogs. -/
theorem c2_amended_witness :
    assignOutletByAddress [⟨"kothrud", some 7⟩] [⟨7, "K", true⟩] "kothrud" = .ok (7, none)
    ∧ assignOutletByAddress [⟨"a", some 1⟩] [⟨1, "X", false⟩, ⟨2, "Y", true⟩] "a"
        = .ok (2, some ("That outlet ("
            ++ (if ("X" : String) = "" then "Your nearest outlet" else "X")
            ++ ") is currently on maintenance. We" ++ aposS ++ "ve assigned your order to "
            ++ (match findOutletRow [⟨1, "X", false⟩, ⟨2, "Y", true⟩] 2 with
                | some o2 => o2.outlet_name
                | none => "another outlet") ++ " instead."))
    ∧ createBookingAssignStep [] [⟨1, "X", false⟩] "z"
        = .ok (.noOutletsMsg
            "All outlets are currently on maintenance. Please try again later.") := by
  refine ⟨?_, ?_, ?_⟩
  · exact c2_amended.1 [⟨"kothrud", some 7⟩] [⟨7, "K", true⟩] "kothrud" "kothrud" 7
      ⟨7, "K", true⟩ (by decide) (by decide) (by decide)
  · exact (c2_amended.2.1 [⟨"a", some 1⟩] [⟨1, "X", false⟩, ⟨2, "Y", true⟩] "a" "a" 1
      ⟨1, "X", false⟩ ⟨2, "Y", true⟩ [] (by decide) (by decide) (by decide) (by decide)).1
  · exact c2_amended.2.2 [] [⟨1, "X", false⟩] "z" (by decide)

/-- Dropping leading whitespace is the identity on whitespace-free text. -/
theorem dropLeadingWs_of_no_ws {cs : List Char} (h : ∀ c ∈ cs, isPyWs c = false) :
    dropLeadingWs cs = cs := by
  cases cs with
  | nil => rfl
  | cons c rest => simp [dropLeadingWs, h c (by simp)]

/-- Model of `strip` is the identity on whitespace-free text. -/
theorem stripL_of_no_ws {cs : List Char} (h : ∀ c ∈ cs, isPyWs c = false) :
    stripL cs = cs := by
  unfold stripL
  rw [dropLeadingWs_of_no_ws (fun c hc => h c (List.mem_reverse.mp hc)),
    List.reverse_reverse]
  exact dropLeadingWs_of_no_ws h

/-- Uppercasing is the identity on text with no lowercase letters. -/
theorem map_toUpper_id {l : List Char} (h : ∀ c ∈ l, Char.toUpper c = c) :
    l.map Char.toUpper = l := by
  induction l with
  | nil => rfl
  | cons c cs ih => simp [h c (by simp), ih (fun x hx => h x (by simp [hx]))]

/-- A list is a `isPrefixOf` any extension of itself. -/
theorem isPrefixOf_append (l t : List Char) : l.isPrefixOf (l ++ t) = true := by
  induction l with
  | nil => simp [List.isPrefixOf]
  | cons c cs ih => simp [List.isPrefixOf, ih]

/-- Model of `takeHexN` consumes a full run of lowercase hex digits. -/
theorem takeHexN_all (d : List Char) (h : ∀ c ∈ d, isLowerHexDigit c = true) :
    takeHexN d.length d = some (d, []) := by
  induction d with
  | nil => rfl
  | cons c cs ih =>
    simp [takeHexN, h c (by simp), ih (fun x hx => h x (by simp [hx]))]

/-- The first regex of `_extract_order_number` matches `ord-` followed by 8
hex digits at the start of the text. -/
theorem searchOrdLower_hyphen (d : List Char) (hd8 : d.length = 8)
    (hall : ∀ c ∈ d, isLowerHexDigit c = true) :
    searchOrdLower ('o' :: 'r' :: 'd' :: '-' :: d) = some d := by
  have ht : takeHexN 8 d = some (d, []) := hd8 ▸ takeHexN_all d hall
  simp [searchOrdLower, tryOrdAt, ht, boundaryOk]

/-- ... and the hyphen of `ord-?` is optional. -/
theorem searchOrdLower_no_hyphen (d : List Char) (hd8 : d.length = 8)
    (hall : ∀ c ∈ d, isLowerHexDigit c = true) :
    searchOrdLower ('o' :: 'r' :: 'd' :: d) = some d := by
  have ht : takeHexN 8 d = some (d, []) := hd8 ▸ takeHexN_all d hall
  cases d with
  | nil => simp at hd8
  | cons c cs =>
    have hc : isLowerHexDigit c = true := hall c (by simp)
    have hcd : c ≠ '-' := by
      intro hcc
      rw [hcc] at hc
      simp [isLowerHexDigit] at hc
    simp [searchOrdLower, tryOrdAt, hcd, ht, boundaryOk]

/-- C7 (counterexample): a generated order number `ORD-1234ABCD` is not
extracted from the bare code `"1234abcd"` (the `ord` prefix letters are
required), and the tracking-service normalization turns the hyphen-less form
`"ord1234abcd"` into the wrong key `"ORD-ORD1234ABCD"`. -/
theorem c7_counterexample :
    nextOrderNumber "1234abcdef00112233445566778899aa".data = "ORD-1234ABCD"
    ∧ extractOrderNumber "1234abcd" "1234abcd" = none
    ∧ normalizeTrackingNumber "ord1234abcd" = "ORD-ORD1234ABCD"
    ∧ ("ORD-ORD1234ABCD" : String) ≠ "ORD-1234ABCD" := by decide

/-- C7 (amended): every generated order number is `ORD-` followed by 8
uppercase hex digits; the chat extraction accepts the code case-insensitively
(the message is lowercased first) with or without the hyphen — but only with
the `ord` letters present — always resolving to the same normalized number;
the tracking-service normalization itself accepts the bare code without the
prefix, and a prefixed code only with its hyphen. -/
theorem c7_amended :
    (∀ hex : List Char, (∀ c ∈ hex, c ∈ ("0123456789abcdef" : String).data) →
      8 ≤ hex.length →
      nextOrderNumber hex = "ORD-" ++ String.mk ((hex.take 8).map Char.toUpper)
      ∧ ((hex.take 8).map Char.toUpper).length = 8
      ∧ (∀ c ∈ (hex.take 8).map Char.toUpper, c ∈ ("0123456789ABCDEF" : String).data))
    ∧ (∀ (t : String) (d : List Char), d.length = 8 →
      (∀ c ∈ d, c ∈ ("0123456789abcdef" : String).data) →
      (lowerStr (stripStr t) = String.mk ('o' :: 'r' :: 'd' :: '-' :: d)
        ∨ lowerStr (stripStr t) = String.mk ('o' :: 'r' :: 'd' :: d)) →
      extractOrderNumber (lowerStr (stripStr t)) t
        = some ("ORD-" ++ String.mk (d.map Char.toUpper)))
    ∧ (∀ d : List Char, d ≠ [] → (∀ c ∈ d, c ∈ ("0123456789ABCDEF" : String).data) →
      normalizeTrackingNumber (String.mk d) = "ORD-" ++ String.mk d
      ∧ normalizeTrackingNumber ("ORD-" ++ String.mk d) = "ORD-" ++ String.mk d) := by
  have hlowhex : ∀ c ∈ ("0123456789abcdef" : String).data, isLowerHexDigit c = true := by
    decide
  have hupmem : ∀ c ∈ ("0123456789abcdef" : String).data,
      Char.toUpper c ∈ ("0123456789ABCDEF" : String).data := by decide
  have hupid : ∀ c ∈ ("0123456789ABCDEF" : String).data, Char.toUpper c = c := by decide
  have hupws : ∀ c ∈ ("0123456789ABCDEF" : String).data, isPyWs c = false := by decide
  have hupO : ∀ c ∈ ("0123456789ABCDEF" : String).data, ('O' == c) = false := by decide
  have hORDws : ∀ c ∈ ("ORD-" : String).data, isPyWs c = false := by decide
  have hORDup : ∀ c ∈ ("ORD-" : String).data, Char.toUpper c = c := by decide
  refine ⟨?_, ?_, ?_⟩
  · intro hex hall h8
    refine ⟨rfl, ?_, ?_⟩
    · simp [List.length_take]
      omega
    · intro c hc
      obtain ⟨c0, hc0, rfl⟩ := List.mem_map.mp hc
      exact hupmem c0 (hall c0 (List.mem_of_mem_take hc0))
  · intro t d hd8 hall hform
    have hhex : ∀ c ∈ d, isLowerHexDigit c = true := fun c hc => hlowhex c (hall c hc)
    rcases hform with hform | hform <;> rw [hform] <;>
      unfold extractOrderNumber
    · rw [show (String.mk ('o' :: 'r' :: 'd' :: '-' :: d)).data
          = 'o' :: 'r' :: 'd' :: '-' :: d from rfl,
        searchOrdLower_hyphen d hd8 hhex]
    · rw [show (String.mk ('o' :: 'r' :: 'd' :: d)).data = 'o' :: 'r' :: 'd' :: d from rfl,
        searchOrdLower_no_hyphen d hd8 hhex]
  · intro d hne hall
    have hstrip : stripL d = d :=
      stripL_of_no_ws (fun c hc => hupws c (hall c hc))
    have hup : d.map Char.toUpper = d := map_toUpper_id (fun c hc => hupid c (hall c hc))
    have hnorm : upperStr (stripStr (String.mk d)) = String.mk d := by
      apply String.ext
      show (String.mk (stripL d)).data.map Char.toUpper = d
      rw [show (String.mk (stripL d)).data = stripL d from rfl, hstrip, hup]
    constructor
    · have hpref : startsWithStr "ORD-" (String.mk d) = false := by
        cases d with
        | nil => exact absurd rfl hne
        | cons c cs =>
          have := hupO c (hall c (by simp))
          simp [startsWithStr, List.isPrefixOf, this]
      have hdne : String.mk d ≠ "" := by
        intro hc
        exact hne (congrArg String.data hc)
      simp only [normalizeTrackingNumber]
      rw [hnorm, hpref]
      simp [hdne]
    · have hdata : ("ORD-" ++ String.mk d).data = "ORD-".data ++ d := by
        rw [String.data_append]
      have hnows : ∀ c ∈ ("ORD-" ++ String.mk d).data, isPyWs c = false := by
        rw [hdata]
        intro c hc
        rcases List.mem_append.mp hc with hc | hc
        · exact hORDws c hc
        · exact hupws c (hall c hc)
      have hupall : ∀ c ∈ ("ORD-" ++ String.mk d).data, Char.toUpper c = c := by
        rw [hdata]
        intro c hc
        rcases List.mem_append.mp hc with hc | hc
        · exact hORDup c hc
        · exact hupid c (hall c hc)
      have hnorm2 : upperStr (stripStr ("ORD-" ++ String.mk d)) = "ORD-" ++ String.mk d := by
        apply String.ext
        show (String.mk (stripL ("ORD-" ++ String.mk d).data)).data.map Char.toUpper
          = ("ORD-" ++ String.mk d).data
        rw [show ∀ l : List Char, (String.mk l).data = l from fun _ => rfl]
        rw [stripL_of_no_ws hnows, map_toUpper_id hupall]
      have hpref : startsWithStr "ORD-" ("ORD-" ++ String.mk d) = true := by
        unfold startsWithStr
        rw [hdata]
        exact isPrefixOf_append "ORD-".data d
      simp only [normalizeTrackingNumber]
      rw [hnorm2, hpref]
      simp

/-- C7 (witness): the amended statement at a concrete order number. -/
theorem c7_amended_witness :
    nextOrderNumber "1234abcdef00112233445566778899aa".data
        = "ORD-" ++ String.mk (("1234abcdef00112233445566778899aa".data.take 8).map
            Char.toUpper)
    ∧ extractOrderNumber (lowerStr (stripStr "Ord-1234AbCd")) "Ord-1234AbCd"
        = some ("ORD-" ++ String.mk ("1234abcd".data.map Char.toUpper))
    ∧ extractOrderNumber (lowerStr (stripStr "ORD1234ABCD")) "ORD1234ABCD"
        = some ("ORD-" ++ String.mk ("1234abcd".data.map Char.toUpper))
    ∧ normalizeTrackingNumber (String.mk "1234ABCD".data) = "ORD-" ++ String.mk "1234ABCD".data :=
  ⟨(c7_amended.1 "1234abcdef00112233445566778899aa".data (by decide) (by decide)).1,
   c7_amended.2.1 "Ord-1234AbCd" "1234abcd".data (by decide) (by decide) (Or.inl (by decide)),
   c7_amended.2.1 "ORD1234ABCD" "1234abcd".data (by decide) (by decide) (Or.inr (by decide)),
   (c7_amended.2.2 "1234ABCD".data (by decide) (by decide)).1⟩

end LaundryBot
